import Mathlib

/-!
Verification development for the NeuroTech assistive-input control engine.

The development shallowly embeds the two control-algorithm units of the
repository:

* `muscle_click.py` — the EMG gesture classifier (`MuscleClickDetector`),
  embedded over exact rationals.  Because the source performs no finiteness
  check on EMG amplitudes, amplitudes are embedded as `FVal ℚ`, a type of
  IEEE-style values (finite, NaN, +∞, −∞) whose comparisons mirror float
  comparison semantics (every comparison involving NaN is false).
* `mems_mouse_mode.py` — the three motion-controller variants
  (`MemsMouseMode`, `GyroMouseOnlineMode`, `GyroMouseMode`).
  `GyroMouseOnlineMode` contains only field arithmetic and is embedded over
  `ℚ` (fully executable).  `MemsMouseMode` and `GyroMouseMode` apply
  power-law response curves with fractional exponents (`** 1.5`, `** 1.6`),
  so they are embedded over `ℝ` with `Real.rpow`; decimal literals of the
  source are embedded as the exact rationals they denote.  Channels that the
  source guards with `math.isfinite` are embedded as `FVal` inputs; channels
  the source reads without a finiteness guard (the gyroscope channels of
  `MemsMouseMode`) are embedded as real numbers, i.e. in their finite case.

Wall-clock reads (`time.time()`) are modelled by passing the current time
`now` explicitly to each update.  Calls to `pyautogui` are modelled as the
emitted output of a step: a relative pointer displacement for the motion
controllers, a `GestureEvent` for the classifier.  The calibration-lock
debug print of each controller is modelled as the `locked` flag of a step's
output.
-/

namespace NeuroTech

/-- IEEE-style scalar: a finite value of `α`, NaN, +∞ or −∞. -/
inductive FVal (α : Type) where
  | fin (x : α)
  | nan
  | inf
  | ninf
deriving DecidableEq

/-- Mirrors `math.isfinite`. -/
def FVal.isFinite {α : Type} : FVal α → Bool
  | .fin _ => true
  | _ => false

/-- The finite payload of an `FVal`; junk (0) on non-finite values, which is
only ever read behind an `isFinite` guard. -/
def FVal.val {α : Type} [Zero α] : FVal α → α
  | .fin x => x
  | _ => 0

/-- Absolute value, as `abs` acts on floats (`abs nan = nan`, `abs ±∞ = ∞`). -/
def FVal.abs : FVal ℚ → FVal ℚ
  | .fin x => .fin |x|
  | .nan => .nan
  | .inf => .inf
  | .ninf => .inf

/-- Multiplication by a positive finite constant (used only with `1e6`),
as it acts on floats. -/
def FVal.scale (k : ℚ) : FVal ℚ → FVal ℚ
  | .fin x => .fin (x * k)
  | .nan => .nan
  | .inf => .inf
  | .ninf => .ninf

/-- The source converts a raw amplitude to microvolts by `abs(v) * 1e6`. -/
def FVal.microvolts (v : FVal ℚ) : FVal ℚ :=
  v.abs.scale 1000000

/-- Float comparison `a < b`: false whenever either side is NaN. -/
def FVal.blt : FVal ℚ → FVal ℚ → Bool
  | .fin a, .fin b => decide (a < b)
  | .fin _, .inf => true
  | .ninf, .fin _ => true
  | .ninf, .inf => true
  | _, _ => false

/-- Float comparison `a ≥ b`: false whenever either side is NaN. -/
def FVal.bge : FVal ℚ → FVal ℚ → Bool
  | .fin a, .fin b => decide (b ≤ a)
  | .inf, .fin _ => true
  | .inf, .inf => true
  | .inf, .ninf => true
  | .fin _, .ninf => true
  | .ninf, .ninf => true
  | _, _ => false

/-- Python's `max` over a non-empty iterable: keep the current candidate and
replace it only when the next element compares strictly greater.  With NaN
all comparisons are false, reproducing Python's order-dependent behaviour. -/
def pyMaxAux (cur : FVal ℚ) : List (FVal ℚ) → FVal ℚ
  | [] => cur
  | x :: xs => pyMaxAux (if FVal.blt cur x then x else cur) xs

/-- `max(abs(d.Sample) * 1e6 for d in data)` over a non-empty envelope
packet `d :: ds`. -/
def envelopeValue (d : FVal ℚ) (ds : List (FVal ℚ)) : FVal ℚ :=
  pyMaxAux d.microvolts (ds.map FVal.microvolts)

/-- The `update_from_signal` amplitude scan: start from `0.0`, skip empty
packs, take each pack's scaled max and keep it when it compares greater than
the running maximum. -/
def signalMax (data : List (List (FVal ℚ))) : FVal ℚ :=
  data.foldl
    (fun cur pack =>
      match pack with
      | [] => cur
      | x :: xs =>
        let localMax := pyMaxAux x.microvolts (xs.map FVal.microvolts)
        if FVal.blt cur localMax then localMax else cur)
    (.fin 0)

/-- `MuscleClickConfig` with the source's default values. -/
structure MuscleClickConfig where
  left_threshold : ℚ := 150
  right_threshold : ℚ := 250
  hold_threshold : ℚ := 225
  right_double_max_gap_sec : ℚ := 3/2
  cooldown_sec : ℚ := 1/2
  use_separate_muscles : Bool := false
  second_muscle_threshold : ℚ := 200
  hold_threshold_sec : ℚ := 3/10
  use_duration_detection : Bool := true
deriving DecidableEq

/-- Mutable state of `MuscleClickDetector` (the `_buffer_max_size` constant
10 is inlined where the buffer is trimmed). -/
structure MuscleClickState where
  lastClickTs : ℚ := 0
  debugPrintedEnv : Bool := false
  debugPrintedSig : Bool := false
  lastRightPeakTs : Option ℚ := none
  contractionStartTime : Option ℚ := none
  isHolding : Bool := false
  isDragging : Bool := false
  muscleBuffer : List (FVal ℚ) := []
deriving DecidableEq

/-- Freshly constructed detector state. -/
def muscleClickInit : MuscleClickState := {}

/-- Discrete action handed to the pointer-injection collaborator. -/
inductive GestureEvent where
  | leftClick
  | rightClick
  | dragStart
  | dragEnd
deriving DecidableEq

/-- Append to the pattern buffer and evict the oldest entry beyond capacity
10, as in `update_from_signal`. -/
def pushBuffer (buf : List (FVal ℚ)) (x : FVal ℚ) : List (FVal ℚ) :=
  let b := buf ++ [x]
  if 10 < b.length then b.drop 1 else b

/-- `MuscleClickDetector.update_from_envelope`. -/
def updateFromEnvelope (cfg : MuscleClickConfig) (s : MuscleClickState)
    (data : List (FVal ℚ)) (now : ℚ) : MuscleClickState × Option GestureEvent :=
  match data with
  | [] => (s, none)
  | d :: ds =>
    let value := envelopeValue d ds
    let s1 := { s with debugPrintedEnv := true }
    if value.blt (.fin cfg.left_threshold) then (s1, none)
    else if now - s1.lastClickTs < cfg.cooldown_sec then (s1, none)
    else ({ s1 with lastClickTs := now }, some .leftClick)

/-- `MuscleClickDetector._handle_duration_based_click`.  The source writes
the drag toggle as `if not self._is_dragging: start else: end`; the branches
are swapped accordingly here. -/
def handleDurationBasedClick (cfg : MuscleClickConfig) (s : MuscleClickState)
    (maxSample : FVal ℚ) (now : ℚ) : MuscleClickState × Option GestureEvent :=
  if maxSample.bge (.fin cfg.hold_threshold) then
    if cfg.cooldown_sec ≤ now - s.lastClickTs then
      if s.isDragging then
        ({ s with lastClickTs := now, isDragging := false }, some .dragEnd)
      else
        ({ s with lastClickTs := now, isDragging := true }, some .dragStart)
    else (s, none)
  else if maxSample.bge (.fin cfg.right_threshold) then
    if cfg.cooldown_sec ≤ now - s.lastClickTs then
      ({ s with lastClickTs := now }, some .rightClick)
    else (s, none)
  else if maxSample.bge (.fin cfg.left_threshold) then
    if cfg.cooldown_sec ≤ now - s.lastClickTs then
      ({ s with lastClickTs := now }, some .leftClick)
    else (s, none)
  else (s, none)

/-- `MuscleClickDetector._handle_simple_click`. -/
def handleSimpleClick (cfg : MuscleClickConfig) (s : MuscleClickState)
    (maxSample : FVal ℚ) (now : ℚ) : MuscleClickState × Option GestureEvent :=
  if maxSample.bge (.fin cfg.right_threshold) then
    if cfg.cooldown_sec ≤ now - s.lastClickTs then
      ({ s with lastClickTs := now }, some .rightClick)
    else (s, none)
  else if maxSample.bge (.fin cfg.left_threshold) then
    if cfg.cooldown_sec ≤ now - s.lastClickTs then
      ({ s with lastClickTs := now }, some .leftClick)
    else (s, none)
  else (s, none)

/-- `MuscleClickDetector.update_from_signal`. -/
def updateFromSignal (cfg : MuscleClickConfig) (s : MuscleClickState)
    (data : List (List (FVal ℚ))) (now : ℚ) : MuscleClickState × Option GestureEvent :=
  match data with
  | [] => (s, none)
  | _ :: _ =>
    let maxSample := signalMax data
    let s1 := { s with muscleBuffer := pushBuffer s.muscleBuffer maxSample,
                       debugPrintedSig := true }
    if cfg.use_duration_detection then handleDurationBasedClick cfg s1 maxSample now
    else handleSimpleClick cfg s1 maxSample now

/-- One classifier invocation: either an envelope packet or a signal packet,
delivered at wall-clock time `now`. -/
inductive ClickCall where
  | env (data : List (FVal ℚ)) (now : ℚ)
  | sig (data : List (List (FVal ℚ))) (now : ℚ)

/-- Dispatch one call; an emitted event is tagged with its timestamp. -/
def clickStep (cfg : MuscleClickConfig) (s : MuscleClickState) :
    ClickCall → MuscleClickState × Option (ℚ × GestureEvent)
  | .env d now =>
    let r := updateFromEnvelope cfg s d now
    (r.1, r.2.map fun e => (now, e))
  | .sig d now =>
    let r := updateFromSignal cfg s d now
    (r.1, r.2.map fun e => (now, e))

/-- Run a sequence of classifier calls, collecting the emitted actions. -/
def clickRun (cfg : MuscleClickConfig) (s : MuscleClickState) :
    List ClickCall → MuscleClickState × List (ℚ × GestureEvent)
  | [] => (s, [])
  | c :: cs =>
    let r := clickStep cfg s c
    let rr := clickRun cfg r.1 cs
    (rr.1, r.2.toList ++ rr.2)

/-- Timestamps form a cooldown chain after base time `t`: the first emitted
action is at least `c` after `t` and each next action at least `c` after the
previous one. -/
def ClickChain (c : ℚ) : ℚ → List (ℚ × GestureEvent) → Prop
  | _, [] => True
  | t, e :: rest => t + c ≤ e.1 ∧ ClickChain c e.1 rest

/-- Drag events of the classifier. -/
def isDragEvent : GestureEvent → Bool
  | .dragStart => true
  | .dragEnd => true
  | _ => false

/-- Strict alternation of drag events, the next expected toggle being
determined by the dragging flag `b`. -/
def AltFrom : Bool → List GestureEvent → Prop
  | _, [] => True
  | b, e :: rest => e = (if b then GestureEvent.dragEnd else GestureEvent.dragStart) ∧
      AltFrom (!b) rest

/-- Holds when an optional emitted event is nothing or a left click. -/
def isLeftOnly : Option GestureEvent → Bool
  | none => true
  | some .leftClick => true
  | some _ => false

/-- Holds when an optional emitted event is a right click. -/
def isRightOpt : Option GestureEvent → Bool
  | some .rightClick => true
  | _ => false

/-! ## Motion controllers: shared step machinery -/

/-- Result of one `update_mems` invocation: the successor state, the relative
pointer displacement handed to `pyautogui.moveRel` (if any), and whether this
call printed the calibration-lock message. -/
structure StepOut (σ : Type) (α : Type) where
  state : σ
  emit : Option (α × α) := none
  locked : Bool := false

/-- The per-axis step clamp each controller applies before moving the
cursor: `if v > max: v = max elif v < -max: v = -max`. -/
def clampStep {α : Type} [LinearOrderedField α] (maxStep v : α) : α :=
  if v > maxStep then maxStep
  else if v < -maxStep then -maxStep
  else v

/-- The shared emission tail of every controller: clamp both axes and call
`moveRel` only when some axis is nonzero. -/
def emitClamped {α : Type} [LinearOrderedField α] (maxStep dx dy : α) :
    Option (α × α) :=
  let dxc := clampStep maxStep dx
  let dyc := clampStep maxStep dy
  if dxc ≠ 0 ∨ dyc ≠ 0 then some (dxc, dyc) else none

/-- Both axes of an emitted displacement are bounded by `maxStep`. -/
def emitBounded {α : Type} [LinearOrderedField α] (maxStep : α) :
    Option (α × α) → Prop
  | none => True
  | some d => |d.1| ≤ maxStep ∧ |d.2| ≤ maxStep

/-- The first axis of an emitted displacement is zero. -/
def emitFstZero {α : Type} [LinearOrderedField α] :
    Option (α × α) → Prop
  | none => True
  | some d => d.1 = 0

/-! ## GyroMouseOnlineMode (embedded over ℚ: the variant is pure field
arithmetic, with no power-law curve) -/

/-- `GyroMouseOnlineConfig` with the source's default values. -/
structure GyroMouseOnlineConfig where
  sensitivity_x : ℚ := 8
  sensitivity_y : ℚ := 8
  neutral_samples : ℕ := 50
  update_interval_sec : ℚ := 1/250
  deadzone_deg : ℚ := 2
  max_step_px : ℚ := 50
  smooth_alpha : ℚ := 4/5
  center_eps_deg : ℚ := 1
  recenter_alpha : ℚ := 1/500
  still_eps_deg : ℚ := 1/2
  still_timeout_sec : ℚ := 1/10
  emg_threshold : ℚ := 5
  emg_smooth_alpha : ℚ := 2/5
deriving DecidableEq

/-- Mutable state of `GyroMouseOnlineMode`.  The sentinel `0.0` of the
source's `_still_since` and `_last_gyro_time` is kept as the rational 0. -/
structure GyroOnlineState where
  neutralGx : ℚ := 0
  neutralGz : ℚ := 0
  accumGx : ℚ := 0
  accumGz : ℚ := 0
  accumCount : ℕ := 0
  vx : ℚ := 0
  vy : ℚ := 0
  lastUpdateTs : ℚ := 0
  lastGx : ℚ := 0
  lastGz : ℚ := 0
  stillSince : ℚ := 0
  lastGyroTime : ℚ := 0
  emgSmooth : ℚ := 0
  emgActive : Bool := false
deriving DecidableEq

/-- Freshly constructed `GyroMouseOnlineMode` state. -/
def gyroOnlineInit : GyroOnlineState := {}

/-- One gyroscope sample of a MEMS packet as read by the gyro-based
controllers; the source finiteness-checks the X and Z channels it uses. -/
structure GyroSample (α : Type) where
  gx : FVal α
  gy : FVal α
  gz : FVal α

/-- `GyroMouseOnlineMode.update_emg`. -/
def gyroOnlineUpdateEmg (cfg : GyroMouseOnlineConfig) (s : GyroOnlineState)
    (envelopeValue : ℚ) : GyroOnlineState :=
  let a := cfg.emg_smooth_alpha
  let sm := (1 - a) * s.emgSmooth + a * envelopeValue
  { s with emgSmooth := sm, emgActive := decide (cfg.emg_threshold ≤ sm) }

/-- Lines 431–463 of the source: dead-zone, minimal exponential smoothing,
the extra `0.95` damping, direct linear mapping to pixels and the step
clamp.  The caller has already folded the stillness and centring gates into
`s`; the smoothing reads the stored velocities `s.vx`, `s.vy`. -/
def gyroOnlineShape (cfg : GyroMouseOnlineConfig) (s : GyroOnlineState)
    (dxDeg dyDeg : ℚ) : StepOut GyroOnlineState ℚ :=
  let ddx := if |dxDeg| < cfg.deadzone_deg then 0 else dxDeg
  let ddy := if |dyDeg| < cfg.deadzone_deg then 0 else dyDeg
  let a := cfg.smooth_alpha
  let vx1 := ((1 - a) * s.vx + a * ddx) * (19/20)
  let vy1 := ((1 - a) * s.vy + a * ddy) * (19/20)
  { state := { s with vx := vx1, vy := vy1 },
    emit := emitClamped cfg.max_step_px (-vx1 * cfg.sensitivity_x)
      (-vy1 * cfg.sensitivity_y) }

/-- Continuation of `GyroMouseOnlineMode.update_mems` past the stillness
block (lines 414–463): record the raw gyro sample, apply the centring gate
(which in this variant always returns), otherwise shape and emit. -/
def gyroOnlineCont (cfg : GyroMouseOnlineConfig) (s : GyroOnlineState)
    (gx gz dxDeg dyDeg : ℚ) : StepOut GyroOnlineState ℚ :=
  let s1 := { s with lastGx := gx, lastGz := gz }
  if |dxDeg| < cfg.center_eps_deg ∧ |dyDeg| < cfg.center_eps_deg then
    let vxd := s1.vx * (1/50)
    let vyd := s1.vy * (1/50)
    { state := { s1 with vx := if |vxd| < 1/100 then 0 else vxd,
                         vy := if |vyd| < 1/100 then 0 else vyd } }
  else gyroOnlineShape cfg s1 dxDeg dyDeg

/-- `GyroMouseOnlineMode.update_mems` on a packet, taking the last sample as
authoritative.  The commented-out EMG gate of the source is likewise
omitted. -/
def gyroOnlineUpdate (cfg : GyroMouseOnlineConfig) (s : GyroOnlineState)
    (now : ℚ) (packet : List (GyroSample ℚ)) : StepOut GyroOnlineState ℚ :=
  match packet.getLast? with
  | none => { state := s }
  | some m =>
    if !(m.gx.isFinite && m.gz.isFinite) then { state := s }
    else
      let gx := m.gx.val
      let gz := m.gz.val
      if s.accumCount < cfg.neutral_samples then
        let s1 := { s with accumGx := s.accumGx + gx, accumGz := s.accumGz + gz,
                           accumCount := s.accumCount + 1 }
        if s1.accumCount = cfg.neutral_samples then
          let n : ℚ := (s1.accumCount : ℚ)
          { state := { s1 with neutralGx := s1.accumGx / n,
                               neutralGz := s1.accumGz / n },
            locked := true }
        else { state := s1 }
      else if now - s.lastUpdateTs < cfg.update_interval_sec then { state := s }
      else
        let s1 := { s with lastUpdateTs := now }
        if (0:ℚ) < s1.lastGyroTime ∧ now - s1.lastGyroTime < 1/100 ∧
            (5 < |gx - s1.lastGx| ∨ 5 < |gz - s1.lastGz|) then
          { state := { s1 with lastGyroTime := now } }
        else
          let s2 := { s1 with lastGyroTime := now }
          let dxDeg := gz - s2.neutralGz
          let dyDeg := gx - s2.neutralGx
          if |gx - s2.lastGx| < cfg.still_eps_deg ∧
              |gz - s2.lastGz| < cfg.still_eps_deg then
            if s2.stillSince = 0 then
              gyroOnlineCont cfg { s2 with stillSince := now } gx gz dxDeg dyDeg
            else if cfg.still_timeout_sec ≤ now - s2.stillSince then
              let vxd := s2.vx * (1/20)
              let vyd := s2.vy * (1/20)
              { state := { s2 with vx := if |vxd| < 1/100 then 0 else vxd,
                                   vy := if |vyd| < 1/100 then 0 else vyd,
                                   lastGx := gx, lastGz := gz } }
            else gyroOnlineCont cfg s2 gx gz dxDeg dyDeg
          else gyroOnlineCont cfg { s2 with stillSince := 0 } gx gz dxDeg dyDeg

/-- Run `GyroMouseOnlineMode` over a list of timestamped packets, collecting
the calibration-lock reports. -/
def gyroOnlineRun (cfg : GyroMouseOnlineConfig) (s : GyroOnlineState) :
    List (ℚ × List (GyroSample ℚ)) → GyroOnlineState × List Bool
  | [] => (s, [])
  | c :: cs =>
    let r := gyroOnlineUpdate cfg s c.1 c.2
    let rr := gyroOnlineRun cfg r.state cs
    (rr.1, r.locked :: rr.2)

/-! ## MemsMouseMode and GyroMouseMode (embedded over ℝ because of the
fractional power-law exponents; these definitions are noncomputable only
through the classical order on ℝ and `Real.rpow`) -/

noncomputable section

/-- `MemsMouseConfig` with the source's default values. -/
structure MemsMouseConfig where
  sensitivity_x : ℝ := 900
  sensitivity_y : ℝ := 900
  deadzone_g : ℝ := 3/50
  neutral_samples : ℕ := 100
  update_interval_sec : ℝ := 1/200
  max_step_px : ℝ := 40
  smooth_alpha : ℝ := 1/4
  center_window_g : ℝ := 1/50
  recenter_alpha : ℝ := 1/500
  still_eps_g : ℝ := 1/250
  gyro_neutral_eps : ℝ := 6
  invert_x : Bool := false
  invert_y : Bool := false
  swap_axes : Bool := false

/-- Mutable state of `MemsMouseMode`. -/
structure MemsMouseState where
  neutralX : ℝ := 0
  neutralY : ℝ := 0
  neutralZ : ℝ := 0
  accumX : ℝ := 0
  accumY : ℝ := 0
  accumZ : ℝ := 0
  accumCount : ℕ := 0
  vxg : ℝ := 0
  vyg : ℝ := 0
  lastAx : ℝ := 0
  lastAy : ℝ := 0
  neutralGx : Option ℝ := none
  neutralGy : Option ℝ := none
  neutralGz : Option ℝ := none
  lastUpdateTs : ℝ := 0

/-- Freshly constructed `MemsMouseMode` state. -/
def memsInit : MemsMouseState := {}

/-- One MEMS sample as read by `MemsMouseMode`: the accelerometer channels
are finiteness-checked by the source and are embedded as `FVal`; the
gyroscope channels are read without any finiteness guard and are embedded
as real numbers (their finite case). -/
structure MemsSample where
  ax : FVal ℝ
  ay : FVal ℝ
  az : FVal ℝ
  gx : ℝ
  gy : ℝ
  gz : ℝ

/-- The `_joystick_curve` of `MemsMouseMode` (lines 212–219): sign-preserving
power 1.5 of the magnitude with the dead zone removed. -/
def joystickCurve15 (dz val : ℝ) : ℝ :=
  if val = 0 then 0
  else (if 0 < val then 1 else -1) * max 0 (|val| - dz) ^ ((3:ℝ)/2)

/-- Lines 186–201 of the source: deviation of the acceleration from neutral
with slow re-centring when both deviations are inside the centre window.
Returns the (possibly adjusted) neutral pair and the recomputed deviation
pair. -/
def memsRecenter (cfg : MemsMouseConfig) (nx ny ax ay : ℝ) : ℝ × ℝ × ℝ × ℝ :=
  let rdx := ax - nx
  let rdy := ay - ny
  if |rdx| < cfg.center_window_g ∧ |rdy| < cfg.center_window_g then
    let r := cfg.recenter_alpha
    let nx2 := (1 - r) * nx + r * ax
    let ny2 := (1 - r) * ny + r * ay
    (nx2, ny2, ax - nx2, ay - ny2)
  else (nx, ny, rdx, rdy)

/-- Lines 186–277 of the source: re-centring, dead zone, response curve,
exponential smoothing into the stored velocities `vx0`, `vy0` (already
decayed by the stillness branch when it fell through), axis-dominance
suppression, axis swap and inversion, sensitivity mapping and step clamp. -/
def memsShape (cfg : MemsMouseConfig) (s : MemsMouseState)
    (ax ay vx0 vy0 : ℝ) : StepOut MemsMouseState ℝ :=
  let rc := memsRecenter cfg s.neutralX s.neutralY ax ay
  let rdx := if |rc.2.2.1| < cfg.deadzone_g then 0 else rc.2.2.1
  let rdy := if |rc.2.2.2| < cfg.deadzone_g then 0 else rc.2.2.2
  let cdx := joystickCurve15 cfg.deadzone_g rdx
  let cdy := joystickCurve15 cfg.deadzone_g rdy
  let a := cfg.smooth_alpha
  let vx1 := (1 - a) * vx0 + a * cdx
  let vy1 := (1 - a) * vy0 + a * cdy
  let dxg := if |vx1| > (3/2) * |vy1| then vx1
    else if |vy1| > (3/2) * |vx1| then 0 else vx1
  let dyg := if |vx1| > (3/2) * |vy1| then 0 else vy1
  let sx0 := if cfg.swap_axes then dyg else dxg
  let sy0 := if cfg.swap_axes then dxg else dyg
  let sx := if cfg.invert_x then -sx0 else sx0
  let sy := if cfg.invert_y then -sy0 else sy0
  { state := { s with
                 neutralX := rc.1, neutralY := rc.2.1,
                 vxg := vx1, vyg := vy1, lastAx := ax, lastAy := ay },
    emit := emitClamped cfg.max_step_px (sx * cfg.sensitivity_x)
      (-sy * cfg.sensitivity_y) }

/-- Lines 163–277 of the source: the stillness gate.  When the acceleration
barely changed since the previous sample the velocities are decayed (and
snapped to zero below half the dead zone); if both reach zero the cursor
does not move, otherwise the decayed velocities fall through into the
shaping pipeline. -/
def memsStillGate (cfg : MemsMouseConfig) (s : MemsMouseState)
    (ax ay : ℝ) : StepOut MemsMouseState ℝ :=
  if |ax - s.lastAx| < cfg.still_eps_g ∧ |ay - s.lastAy| < cfg.still_eps_g then
    let vxd := s.vxg * (3/10)
    let vyd := s.vyg * (3/10)
    let vx0 := if |vxd| < cfg.deadzone_g * (1/2) then 0 else vxd
    let vy0 := if |vyd| < cfg.deadzone_g * (1/2) then 0 else vyd
    if vx0 = 0 ∧ vy0 = 0 then
      { state := { s with vxg := vx0, vyg := vy0, lastAx := ax, lastAy := ay } }
    else memsShape cfg s ax ay vx0 vy0
  else memsShape cfg s ax ay s.vxg s.vyg

/-- Lines 144–161 of the source: when a gyro neutral was captured and the
current angular rate is close to it, damp the velocities and do not move the
cursor; otherwise continue into the stillness gate. -/
def memsPostLock (cfg : MemsMouseConfig) (s : MemsMouseState)
    (ax ay gx gy gz : ℝ) : StepOut MemsMouseState ℝ :=
  match s.neutralGx, s.neutralGy, s.neutralGz with
  | some ngx, some ngy, some ngz =>
    let dgx := gx - ngx
    let dgy := gy - ngy
    let dgz := gz - ngz
    if Real.sqrt (dgx * dgx + dgy * dgy + dgz * dgz) < cfg.gyro_neutral_eps then
      { state := { s with vxg := 0, vyg := 0, lastAx := ax, lastAy := ay } }
    else memsStillGate cfg s ax ay
  | _, _, _ => memsStillGate cfg s ax ay

/-- `MemsMouseMode.update_mems` on a packet, taking the last sample as
authoritative. -/
def memsUpdate (cfg : MemsMouseConfig) (s : MemsMouseState)
    (now : ℝ) (packet : List MemsSample) : StepOut MemsMouseState ℝ :=
  match packet.getLast? with
  | none => { state := s }
  | some m =>
    if !(m.ax.isFinite && m.ay.isFinite && m.az.isFinite) then { state := s }
    else
      let ax := m.ax.val
      let ay := m.ay.val
      let az := m.az.val
      if s.accumCount < cfg.neutral_samples then
        let s1 := { s with accumX := s.accumX + ax, accumY := s.accumY + ay,
                           accumZ := s.accumZ + az, accumCount := s.accumCount + 1 }
        if s1.accumCount = cfg.neutral_samples then
          let n : ℝ := (s1.accumCount : ℝ)
          { state := { s1 with neutralX := s1.accumX / n, neutralY := s1.accumY / n,
                               neutralZ := s1.accumZ / n,
                               neutralGx := some m.gx, neutralGy := some m.gy,
                               neutralGz := some m.gz },
            locked := true }
        else { state := s1 }
      else if now - s.lastUpdateTs < cfg.update_interval_sec then { state := s }
      else memsPostLock cfg { s with lastUpdateTs := now } ax ay m.gx m.gy m.gz

/-- Run `MemsMouseMode` over a list of timestamped packets, collecting the
calibration-lock reports. -/
def memsRun (cfg : MemsMouseConfig) (s : MemsMouseState) :
    List (ℝ × List MemsSample) → MemsMouseState × List Bool
  | [] => (s, [])
  | c :: cs =>
    let r := memsUpdate cfg s c.1 c.2
    let rr := memsRun cfg r.state cs
    (rr.1, r.locked :: rr.2)

/-- Configuration record for `GyroMouseMode`.  Modelled from the spec: the
class `GyroMouseConfig` is referenced by `GyroMouseMode` but defined nowhere
in the repository, so only its field set — the fields the controller reads,
per the spec's per-variant configuration contract — is embedded, with no
default values assumed. -/
structure GyroMouseConfig where
  sensitivity_x : ℝ
  sensitivity_y : ℝ
  neutral_samples : ℕ
  update_interval_sec : ℝ
  deadzone_deg : ℝ
  max_step_px : ℝ
  smooth_alpha : ℝ
  center_eps_deg : ℝ
  recenter_alpha : ℝ
  still_eps_deg : ℝ
  still_timeout_sec : ℝ
  emg_threshold : ℝ
  emg_smooth_alpha : ℝ

/-- Mutable state of `GyroMouseMode`. -/
structure GyroMouseState where
  neutralGx : ℝ := 0
  neutralGz : ℝ := 0
  accumGx : ℝ := 0
  accumGz : ℝ := 0
  accumCount : ℕ := 0
  vx : ℝ := 0
  vy : ℝ := 0
  lastUpdateTs : ℝ := 0
  lastGx : ℝ := 0
  lastGz : ℝ := 0
  stillSince : ℝ := 0
  emgSmooth : ℝ := 0
  emgActive : Bool := false

/-- Freshly constructed `GyroMouseMode` state. -/
def gyroMouseInit : GyroMouseState := {}

/-- The `_joystick_curve` of `GyroMouseMode` (lines 594–599): sign-preserving
power 1.6 of the magnitude (no dead-zone subtraction in this variant). -/
def joystickCurve16 (val : ℝ) : ℝ :=
  if val = 0 then 0
  else (if 0 < val then 1 else -1) * |val| ^ ((8:ℝ)/5)

/-- Lines 582–619 of the source: dead zone, exponential smoothing of the
dead-zone-adjusted deviation into the stored velocities `vxa`, `vya`
(already decayed by the centring gate when it fell through), then the
power-law curve applied to the smoothed velocity, sensitivity mapping and
step clamp. -/
def gyroShape (cfg : GyroMouseConfig) (s : GyroMouseState)
    (dxDeg dyDeg vxa vya : ℝ) : StepOut GyroMouseState ℝ :=
  let ddx := if |dxDeg| < cfg.deadzone_deg then 0 else dxDeg
  let ddy := if |dyDeg| < cfg.deadzone_deg then 0 else dyDeg
  let a := cfg.smooth_alpha
  let vx1 := (1 - a) * vxa + a * ddx
  let vy1 := (1 - a) * vya + a * ddy
  { state := { s with vx := vx1, vy := vy1 },
    emit := emitClamped cfg.max_step_px
      (-(joystickCurve16 vx1) * cfg.sensitivity_x)
      (-(joystickCurve16 vy1) * cfg.sensitivity_y) }

/-- Continuation of `GyroMouseMode.update_mems` past the stillness block
(lines 560–619): record the raw gyro sample, apply the centring gate (whose
velocity decay persists when it falls through, and which re-centres the
neutral and returns only when both decayed velocities snapped to zero),
otherwise shape and emit. -/
def gyroCont (cfg : GyroMouseConfig) (s : GyroMouseState)
    (gx gz dxDeg dyDeg : ℝ) : StepOut GyroMouseState ℝ :=
  let s1 := { s with lastGx := gx, lastGz := gz }
  if |dxDeg| < cfg.center_eps_deg ∧ |dyDeg| < cfg.center_eps_deg then
    let vxd := s1.vx * (1/5)
    let vyd := s1.vy * (1/5)
    let vxa := if |vxd| < 1/10 then 0 else vxd
    let vya := if |vyd| < 1/10 then 0 else vyd
    if vxa = 0 ∧ vya = 0 then
      let r := cfg.recenter_alpha
      { state := { s1 with vx := vxa, vy := vya,
                           neutralGx := (1 - r) * s1.neutralGx + r * gx,
                           neutralGz := (1 - r) * s1.neutralGz + r * gz } }
    else gyroShape cfg s1 dxDeg dyDeg vxa vya
  else gyroShape cfg s1 dxDeg dyDeg s1.vx s1.vy

/-- `GyroMouseMode.update_mems` on a packet, taking the last sample as
authoritative. -/
def gyroUpdate (cfg : GyroMouseConfig) (s : GyroMouseState)
    (now : ℝ) (packet : List (GyroSample ℝ)) : StepOut GyroMouseState ℝ :=
  match packet.getLast? with
  | none => { state := s }
  | some m =>
    if !(m.gx.isFinite && m.gz.isFinite) then { state := s }
    else
      let gx := m.gx.val
      let gz := m.gz.val
      if s.accumCount < cfg.neutral_samples then
        let s1 := { s with accumGx := s.accumGx + gx, accumGz := s.accumGz + gz,
                           accumCount := s.accumCount + 1 }
        if s1.accumCount = cfg.neutral_samples then
          let n : ℝ := (s1.accumCount : ℝ)
          { state := { s1 with neutralGx := s1.accumGx / n,
                               neutralGz := s1.accumGz / n },
            locked := true }
        else { state := s1 }
      else if now - s.lastUpdateTs < cfg.update_interval_sec then { state := s }
      else
        let s1 := { s with lastUpdateTs := now }
        let dxDeg := gz - s1.neutralGz
        let dyDeg := gx - s1.neutralGx
        if |gx - s1.lastGx| < cfg.still_eps_deg ∧
            |gz - s1.lastGz| < cfg.still_eps_deg then
          if s1.stillSince = 0 then
            gyroCont cfg { s1 with stillSince := now } gx gz dxDeg dyDeg
          else if cfg.still_timeout_sec ≤ now - s1.stillSince then
            let vxd := s1.vx * (1/5)
            let vyd := s1.vy * (1/5)
            { state := { s1 with vx := if |vxd| < 1/10 then 0 else vxd,
                                 vy := if |vyd| < 1/10 then 0 else vyd,
                                 lastGx := gx, lastGz := gz } }
          else gyroCont cfg s1 gx gz dxDeg dyDeg
        else gyroCont cfg { s1 with stillSince := 0 } gx gz dxDeg dyDeg

/-- Run `GyroMouseMode` over a list of timestamped packets, collecting the
calibration-lock reports. -/
def gyroRun (cfg : GyroMouseConfig) (s : GyroMouseState) :
    List (ℝ × List (GyroSample ℝ)) → GyroMouseState × List Bool
  | [] => (s, [])
  | c :: cs =>
    let r := gyroUpdate cfg s c.1 c.2
    let rr := gyroRun cfg r.state cs
    (rr.1, r.locked :: rr.2)

/-- The calibration accumulation `MemsMouseMode.update_mems` performs on an
accepted warm-up sample (lines 118–122 of the source). -/
def memsCalibBump (s : MemsMouseState) (m : MemsSample) : MemsMouseState :=
  { s with
      accumX := s.accumX + m.ax.val
      accumY := s.accumY + m.ay.val
      accumZ := s.accumZ + m.az.val
      accumCount := s.accumCount + 1 }

/-- The state produced when the accumulation reaches `neutral_samples`
(lines 124–134 of the source): the baselines become the accumulator means
and the gyro neutral is captured from the locking sample. -/
def memsLockState (s : MemsMouseState) (m : MemsSample) : MemsMouseState :=
  { memsCalibBump s m with
      neutralX := (s.accumX + m.ax.val) / ((s.accumCount + 1 : ℕ) : ℝ)
      neutralY := (s.accumY + m.ay.val) / ((s.accumCount + 1 : ℕ) : ℝ)
      neutralZ := (s.accumZ + m.az.val) / ((s.accumCount + 1 : ℕ) : ℝ)
      neutralGx := some m.gx
      neutralGy := some m.gy
      neutralGz := some m.gz }

/-- The calibration accumulation of the gyroscope-based controllers. -/
def gyroOnlineCalibBump (s : GyroOnlineState) (m : GyroSample ℚ) :
    GyroOnlineState :=
  { s with
      accumGx := s.accumGx + m.gx.val
      accumGz := s.accumGz + m.gz.val
      accumCount := s.accumCount + 1 }

/-- The locking state of `GyroMouseOnlineMode`. -/
def gyroOnlineLockState (s : GyroOnlineState) (m : GyroSample ℚ) :
    GyroOnlineState :=
  { gyroOnlineCalibBump s m with
      neutralGx := (s.accumGx + m.gx.val) / ((s.accumCount + 1 : ℕ) : ℚ)
      neutralGz := (s.accumGz + m.gz.val) / ((s.accumCount + 1 : ℕ) : ℚ) }

/-- The calibration accumulation of `GyroMouseMode`. -/
def gyroCalibBump (s : GyroMouseState) (m : GyroSample ℝ) : GyroMouseState :=
  { s with
      accumGx := s.accumGx + m.gx.val
      accumGz := s.accumGz + m.gz.val
      accumCount := s.accumCount + 1 }

/-- The locking state of `GyroMouseMode`. -/
def gyroLockState (s : GyroMouseState) (m : GyroSample ℝ) : GyroMouseState :=
  { gyroCalibBump s m with
      neutralGx := (s.accumGx + m.gx.val) / ((s.accumCount + 1 : ℕ) : ℝ)
      neutralGz := (s.accumGz + m.gz.val) / ((s.accumCount + 1 : ℕ) : ℝ) }

/-- An explicit example configuration for `GyroMouseMode`, used to
instantiate witnesses: the repository never constructs a `GyroMouseConfig`,
so a concrete record is provided here. -/
def gyroMouseCfgEx : GyroMouseConfig :=
  ⟨8, 8, 50, 1/250, 2, 50, 4/5, 1, 1/500, 1/2, 1/10, 5, 2/5⟩

end

/-! ## Helper lemmas -/

theorem abs_clampStep_le {α : Type} [LinearOrderedField α] (m v : α)
    (hm : 0 ≤ m) : |clampStep m v| ≤ m := by
  unfold clampStep
  split_ifs with h1 h2
  · simp [abs_of_nonneg hm]
  · simp [abs_neg, abs_of_nonneg hm]
  · push_neg at h1 h2
    exact abs_le.mpr ⟨h2, h1⟩

theorem emitClamped_bounded {α : Type} [LinearOrderedField α] (m dx dy : α)
    (hm : 0 ≤ m) : emitBounded m (emitClamped m dx dy) := by
  unfold emitClamped
  dsimp only
  split
  · exact ⟨abs_clampStep_le m dx hm, abs_clampStep_le m dy hm⟩
  · trivial

theorem clampStep_zero {α : Type} [LinearOrderedField α] (m : α)
    (hm : 0 ≤ m) : clampStep m 0 = 0 := by
  unfold clampStep
  rw [if_neg (by linarith), if_neg (by simp; linarith)]

theorem FVal.bge_mono {x : FVal ℚ} {a b : ℚ} (hab : a ≤ b)
    (h : x.bge (.fin b) = true) : x.bge (.fin a) = true := by
  cases x with
  | fin q =>
    simp only [FVal.bge, decide_eq_true_eq] at h ⊢
    exact le_trans hab h
  | nan => exact absurd h (by simp [FVal.bge])
  | inf => simp [FVal.bge]
  | ninf => exact absurd h (by simp [FVal.bge])

/-! ## Per-variant step-clamp lemmas (used for C1) -/

theorem memsShape_bounded (cfg : MemsMouseConfig) (s : MemsMouseState)
    (ax ay v w : ℝ) (hm : 0 ≤ cfg.max_step_px) :
    emitBounded cfg.max_step_px (memsShape cfg s ax ay v w).emit :=
  emitClamped_bounded _ _ _ hm

theorem memsStillGate_bounded (cfg : MemsMouseConfig) (s : MemsMouseState)
    (ax ay : ℝ) (hm : 0 ≤ cfg.max_step_px) :
    emitBounded cfg.max_step_px (memsStillGate cfg s ax ay).emit := by
  unfold memsStillGate
  dsimp only
  repeat' split
  all_goals first
    | trivial
    | exact memsShape_bounded _ _ _ _ _ _ hm

theorem memsPostLock_bounded (cfg : MemsMouseConfig) (s : MemsMouseState)
    (ax ay gx gy gz : ℝ) (hm : 0 ≤ cfg.max_step_px) :
    emitBounded cfg.max_step_px (memsPostLock cfg s ax ay gx gy gz).emit := by
  unfold memsPostLock
  dsimp only
  repeat' split
  all_goals first
    | trivial
    | exact memsStillGate_bounded _ _ _ _ hm

theorem memsUpdate_bounded (cfg : MemsMouseConfig) (s : MemsMouseState)
    (now : ℝ) (packet : List MemsSample) (hm : 0 ≤ cfg.max_step_px) :
    emitBounded cfg.max_step_px (memsUpdate cfg s now packet).emit := by
  unfold memsUpdate
  dsimp only
  repeat' split
  all_goals first
    | trivial
    | exact memsPostLock_bounded _ _ _ _ _ _ _ hm

theorem gyroOnlineShape_bounded (cfg : GyroMouseOnlineConfig)
    (s : GyroOnlineState) (dx dy : ℚ) (hm : 0 ≤ cfg.max_step_px) :
    emitBounded cfg.max_step_px (gyroOnlineShape cfg s dx dy).emit :=
  emitClamped_bounded _ _ _ hm

theorem gyroOnlineCont_bounded (cfg : GyroMouseOnlineConfig)
    (s : GyroOnlineState) (gx gz dx dy : ℚ) (hm : 0 ≤ cfg.max_step_px) :
    emitBounded cfg.max_step_px (gyroOnlineCont cfg s gx gz dx dy).emit := by
  unfold gyroOnlineCont
  dsimp only
  repeat' split
  all_goals first
    | trivial
    | exact gyroOnlineShape_bounded _ _ _ _ hm

theorem gyroOnlineUpdate_bounded (cfg : GyroMouseOnlineConfig)
    (s : GyroOnlineState) (now : ℚ) (packet : List (GyroSample ℚ))
    (hm : 0 ≤ cfg.max_step_px) :
    emitBounded cfg.max_step_px (gyroOnlineUpdate cfg s now packet).emit := by
  unfold gyroOnlineUpdate
  dsimp only
  repeat' split
  all_goals first
    | trivial
    | exact gyroOnlineCont_bounded _ _ _ _ _ _ hm

theorem gyroShape_bounded (cfg : GyroMouseConfig) (s : GyroMouseState)
    (dx dy v w : ℝ) (hm : 0 ≤ cfg.max_step_px) :
    emitBounded cfg.max_step_px (gyroShape cfg s dx dy v w).emit :=
  emitClamped_bounded _ _ _ hm

theorem gyroCont_bounded (cfg : GyroMouseConfig) (s : GyroMouseState)
    (gx gz dx dy : ℝ) (hm : 0 ≤ cfg.max_step_px) :
    emitBounded cfg.max_step_px (gyroCont cfg s gx gz dx dy).emit := by
  unfold gyroCont
  dsimp only
  repeat' split
  all_goals first
    | trivial
    | exact gyroShape_bounded _ _ _ _ _ _ hm

theorem gyroUpdate_bounded (cfg : GyroMouseConfig) (s : GyroMouseState)
    (now : ℝ) (packet : List (GyroSample ℝ)) (hm : 0 ≤ cfg.max_step_px) :
    emitBounded cfg.max_step_px (gyroUpdate cfg s now packet).emit := by
  unfold gyroUpdate
  dsimp only
  repeat' split
  all_goals first
    | trivial
    | exact gyroCont_bounded _ _ _ _ _ _ hm

theorem handleDuration_no_right (cfg : MuscleClickConfig) (s : MuscleClickState)
    (x : FVal ℚ) (now : ℚ) (h : cfg.hold_threshold ≤ cfg.right_threshold) :
    isRightOpt (handleDurationBasedClick cfg s x now).2 = false := by
  unfold handleDurationBasedClick
  split_ifs with h1 h2 h3 h4 h5 h6 h7
  all_goals first
    | rfl
    | exact absurd (FVal.bge_mono h h4) h1

/-! ## Claim theorems -/

/-- C9: with the default `MuscleClickConfig` (`hold_threshold = 225 ≤
right_threshold = 250`, duration detection on), `update_from_signal` can
never emit a right click: any amplitude at or above `right_threshold` also
clears `hold_threshold`, so the hold branch fires (or its cooldown guard
returns) first. -/
theorem c9_default_config_no_right_click (s : MuscleClickState)
    (data : List (List (FVal ℚ))) (now : ℚ) :
    isRightOpt (updateFromSignal {} s data now).2 = false := by
  cases data with
  | nil => rfl
  | cons p ps => exact handleDuration_no_right {} _ _ now (by norm_num)

/-- C10: `update_from_envelope` can only ever emit a left click — whatever
the amplitude and configuration — and it neither reads nor toggles the
dragging flag: its output is unchanged under any value `b` of the flag, and
the flag passes through the state untouched. -/
theorem c10_envelope_left_only (cfg : MuscleClickConfig) (s : MuscleClickState)
    (data : List (FVal ℚ)) (now : ℚ) (b : Bool) :
    (updateFromEnvelope cfg { s with isDragging := b } data now).2 =
      (updateFromEnvelope cfg s data now).2 ∧
    (updateFromEnvelope cfg { s with isDragging := b } data now).1 =
      { (updateFromEnvelope cfg s data now).1 with isDragging := b } ∧
    isLeftOnly (updateFromEnvelope cfg s data now).2 = true := by
  cases data with
  | nil => exact ⟨rfl, rfl, rfl⟩
  | cons d ds =>
    simp only [updateFromEnvelope]
    split_ifs <;> exact ⟨rfl, rfl, rfl⟩

/-- C1 (amended): for every configuration whose `max_step_px` is
nonnegative, every state, time and input packet, the displacement emitted by
any of the three controller variants satisfies `|dx_px| ≤ max_step_px` and
`|dy_px| ≤ max_step_px`.  (The claim as stated, over every configuration,
fails for negative `max_step_px`; see the counterexample.) -/
theorem c1_clamped_displacement
    (cfg1 : MemsMouseConfig) (s1 : MemsMouseState) (now1 : ℝ)
    (p1 : List MemsSample)
    (cfg2 : GyroMouseOnlineConfig) (s2 : GyroOnlineState) (now2 : ℚ)
    (p2 : List (GyroSample ℚ))
    (cfg3 : GyroMouseConfig) (s3 : GyroMouseState) (now3 : ℝ)
    (p3 : List (GyroSample ℝ))
    (h1 : 0 ≤ cfg1.max_step_px) (h2 : 0 ≤ cfg2.max_step_px)
    (h3 : 0 ≤ cfg3.max_step_px) :
    emitBounded cfg1.max_step_px (memsUpdate cfg1 s1 now1 p1).emit ∧
    emitBounded cfg2.max_step_px (gyroOnlineUpdate cfg2 s2 now2 p2).emit ∧
    emitBounded cfg3.max_step_px (gyroUpdate cfg3 s3 now3 p3).emit :=
  ⟨memsUpdate_bounded cfg1 s1 now1 p1 h1,
   gyroOnlineUpdate_bounded cfg2 s2 now2 p2 h2,
   gyroUpdate_bounded cfg3 s3 now3 p3 h3⟩

/-- Witness for C1 at the default configurations (and an explicit
configuration for `GyroMouseMode`, whose config record the repository never
defines). -/
theorem c1_witness :
    (0 ≤ ({} : MemsMouseConfig).max_step_px ∧
     0 ≤ ({} : GyroMouseOnlineConfig).max_step_px ∧
     0 ≤ gyroMouseCfgEx.max_step_px) ∧
    (emitBounded ({} : MemsMouseConfig).max_step_px
       (memsUpdate {} memsInit 1 []).emit ∧
     emitBounded ({} : GyroMouseOnlineConfig).max_step_px
       (gyroOnlineUpdate {} gyroOnlineInit 1 []).emit ∧
     emitBounded gyroMouseCfgEx.max_step_px
       (gyroUpdate gyroMouseCfgEx gyroMouseInit 1 []).emit) :=
  ⟨⟨by norm_num, by norm_num, by norm_num [gyroMouseCfgEx]⟩,
   c1_clamped_displacement {} memsInit 1 [] {} gyroOnlineInit 1 []
     gyroMouseCfgEx gyroMouseInit 1 []
     (by norm_num) (by norm_num) (by norm_num [gyroMouseCfgEx])⟩

/-- Counterexample to C1 as stated: with `max_step_px = -1` (a configuration
the claim quantifies over) a locked `GyroMouseOnlineMode` processing a MEMS
packet emits the displacement `(1, 1)`, and `|1| ≤ max_step_px` is false. -/
theorem c1_counterexample :
    (gyroOnlineUpdate { max_step_px := -1 }
      { gyroOnlineInit with accumCount := 50 } 1
      [{ gx := .fin 10, gy := .fin 0, gz := .fin 10 }]).emit = some (1, 1) ∧
    ¬(|(1:ℚ)| ≤ ({ max_step_px := -1 } : GyroMouseOnlineConfig).max_step_px) := by
  constructor
  · norm_num [gyroOnlineUpdate, gyroOnlineCont, gyroOnlineShape, emitClamped,
      clampStep, gyroOnlineInit, FVal.isFinite, FVal.val, List.getLast?,
      abs_of_pos, abs_of_neg]
  · norm_num

/-- C6 (amended): a non-finite value in a channel that the source
finiteness-checks — the accelerometer channels in `MemsMouseMode`, the
gyroscope X/Z channels in `GyroMouseOnlineMode` and `GyroMouseMode` — drops
the sample with no state mutation, no emitted displacement and no lock
report.  (The claim as stated — any channel of any entry point, including
the EMG amplitude — fails: the classifier performs no finiteness check; see
the counterexample.) -/
theorem c6_nonfinite_checked_channels_drop
    (cfg1 : MemsMouseConfig) (s1 : MemsMouseState) (now1 : ℝ)
    (p1 : List MemsSample) (m1 : MemsSample)
    (cfg2 : GyroMouseOnlineConfig) (s2 : GyroOnlineState) (now2 : ℚ)
    (p2 : List (GyroSample ℚ)) (m2 : GyroSample ℚ)
    (cfg3 : GyroMouseConfig) (s3 : GyroMouseState) (now3 : ℝ)
    (p3 : List (GyroSample ℝ)) (m3 : GyroSample ℝ)
    (h1 : p1.getLast? = some m1)
    (hf1 : (m1.ax.isFinite && m1.ay.isFinite && m1.az.isFinite) = false)
    (h2 : p2.getLast? = some m2)
    (hf2 : (m2.gx.isFinite && m2.gz.isFinite) = false)
    (h3 : p3.getLast? = some m3)
    (hf3 : (m3.gx.isFinite && m3.gz.isFinite) = false) :
    memsUpdate cfg1 s1 now1 p1 = { state := s1 } ∧
    gyroOnlineUpdate cfg2 s2 now2 p2 = { state := s2 } ∧
    gyroUpdate cfg3 s3 now3 p3 = { state := s3 } := by
  refine ⟨?_, ?_, ?_⟩
  · simp [memsUpdate, h1, hf1]
  · simp [gyroOnlineUpdate, h2, hf2]
  · simp [gyroUpdate, h3, hf3]

/-- Witness for C6 (amended) at NaN samples. -/
theorem c6_witness :
    ([({ ax := .nan, ay := .fin 0, az := .fin 0, gx := 0, gy := 0, gz := 0 } :
        MemsSample)].getLast? = some
      { ax := .nan, ay := .fin 0, az := .fin 0, gx := 0, gy := 0, gz := 0 } ∧
     (((FVal.nan : FVal ℝ).isFinite && (FVal.fin (0:ℝ)).isFinite &&
        (FVal.fin (0:ℝ)).isFinite) = false) ∧
     ([({ gx := .nan, gy := .fin 0, gz := .fin 0 } : GyroSample ℚ)].getLast? =
       some { gx := .nan, gy := .fin 0, gz := .fin 0 }) ∧
     (((FVal.nan : FVal ℚ).isFinite && (FVal.fin (0:ℚ)).isFinite) = false) ∧
     ([({ gx := .nan, gy := .fin 0, gz := .fin 0 } : GyroSample ℝ)].getLast? =
       some { gx := .nan, gy := .fin 0, gz := .fin 0 }) ∧
     (((FVal.nan : FVal ℝ).isFinite && (FVal.fin (0:ℝ)).isFinite) = false)) ∧
    (memsUpdate {} memsInit 1
       [{ ax := .nan, ay := .fin 0, az := .fin 0, gx := 0, gy := 0, gz := 0 }] =
       { state := memsInit } ∧
     gyroOnlineUpdate {} gyroOnlineInit 1
       [{ gx := .nan, gy := .fin 0, gz := .fin 0 }] = { state := gyroOnlineInit } ∧
     gyroUpdate gyroMouseCfgEx gyroMouseInit 1
       [{ gx := .nan, gy := .fin 0, gz := .fin 0 }] = { state := gyroMouseInit }) :=
  ⟨⟨rfl, rfl, rfl, rfl, rfl, rfl⟩,
   c6_nonfinite_checked_channels_drop {} memsInit 1 _ _ {} gyroOnlineInit 1 _ _
     gyroMouseCfgEx gyroMouseInit 1 _ _
     rfl rfl rfl rfl rfl rfl⟩

/-- Counterexample to C6 as stated: a NaN EMG amplitude is not dropped by
`update_from_envelope` — every float comparison against NaN is false, so the
below-threshold early return does not fire and a left click is emitted. -/
theorem c6_counterexample :
    (FVal.nan : FVal ℚ).isFinite = false ∧
    (updateFromEnvelope {} muscleClickInit [FVal.nan] 1).2 =
      some GestureEvent.leftClick := by
  refine ⟨rfl, ?_⟩
  norm_num [updateFromEnvelope, envelopeValue, FVal.microvolts, FVal.abs,
    FVal.scale, FVal.blt, pyMaxAux, muscleClickInit]

/-- C7 (amended): after calibration lock, a packet arriving before
`update_interval_sec` has elapsed since the last accepted update is dropped
by every controller variant with no state mutation, no emission and no lock
report.  (Before lock the rate limiter is not consulted — calibration
packets mutate the accumulators at any rate; see the counterexample.) -/
theorem c7_rate_limited_packet_dropped
    (cfg1 : MemsMouseConfig) (s1 : MemsMouseState) (now1 : ℝ)
    (p1 : List MemsSample)
    (cfg2 : GyroMouseOnlineConfig) (s2 : GyroOnlineState) (now2 : ℚ)
    (p2 : List (GyroSample ℚ))
    (cfg3 : GyroMouseConfig) (s3 : GyroMouseState) (now3 : ℝ)
    (p3 : List (GyroSample ℝ))
    (hc1 : cfg1.neutral_samples ≤ s1.accumCount)
    (ht1 : now1 - s1.lastUpdateTs < cfg1.update_interval_sec)
    (hc2 : cfg2.neutral_samples ≤ s2.accumCount)
    (ht2 : now2 - s2.lastUpdateTs < cfg2.update_interval_sec)
    (hc3 : cfg3.neutral_samples ≤ s3.accumCount)
    (ht3 : now3 - s3.lastUpdateTs < cfg3.update_interval_sec) :
    memsUpdate cfg1 s1 now1 p1 = { state := s1 } ∧
    gyroOnlineUpdate cfg2 s2 now2 p2 = { state := s2 } ∧
    gyroUpdate cfg3 s3 now3 p3 = { state := s3 } := by
  refine ⟨?_, ?_, ?_⟩
  · unfold memsUpdate
    split
    · rfl
    · split
      · rfl
      · dsimp only
        rw [if_neg (Nat.not_lt.mpr hc1)]
  · unfold gyroOnlineUpdate
    split
    · rfl
    · split
      · rfl
      · dsimp only
        rw [if_neg (Nat.not_lt.mpr hc2)]
  · unfold gyroUpdate
    split
    · rfl
    · split
      · rfl
      · dsimp only
        rw [if_neg (Nat.not_lt.mpr hc3)]

/-- Witness for C7 (amended) on locked states and a too-early packet. -/
theorem c7_witness :
    (({} : MemsMouseConfig).neutral_samples ≤
       ({ memsInit with accumCount := 100 } : MemsMouseState).accumCount ∧
     (1:ℝ)/1000 - ({ memsInit with accumCount := 100 } :
       MemsMouseState).lastUpdateTs < ({} : MemsMouseConfig).update_interval_sec ∧
     ({} : GyroMouseOnlineConfig).neutral_samples ≤
       ({ gyroOnlineInit with accumCount := 50 } : GyroOnlineState).accumCount ∧
     (1:ℚ)/1000 - ({ gyroOnlineInit with accumCount := 50 } :
       GyroOnlineState).lastUpdateTs < ({} : GyroMouseOnlineConfig).update_interval_sec ∧
     gyroMouseCfgEx.neutral_samples ≤
       ({ gyroMouseInit with accumCount := 50 } : GyroMouseState).accumCount ∧
     (1:ℝ)/1000 - ({ gyroMouseInit with accumCount := 50 } :
       GyroMouseState).lastUpdateTs <
       gyroMouseCfgEx.update_interval_sec) ∧
    (memsUpdate {} { memsInit with accumCount := 100 } (1/1000) [] =
       { state := { memsInit with accumCount := 100 } } ∧
     gyroOnlineUpdate {} { gyroOnlineInit with accumCount := 50 } (1/1000) [] =
       { state := { gyroOnlineInit with accumCount := 50 } } ∧
     gyroUpdate gyroMouseCfgEx { gyroMouseInit with accumCount := 50 }
         (1/1000) [] = { state := { gyroMouseInit with accumCount := 50 } }) :=
  ⟨⟨by norm_num [memsInit], by norm_num [memsInit], by norm_num [gyroOnlineInit],
    by norm_num [gyroOnlineInit], by norm_num [gyroMouseInit, gyroMouseCfgEx],
    by norm_num [gyroMouseInit, gyroMouseCfgEx]⟩,
   c7_rate_limited_packet_dropped {} { memsInit with accumCount := 100 } (1/1000) []
     {} { gyroOnlineInit with accumCount := 50 } (1/1000) []
     gyroMouseCfgEx { gyroMouseInit with accumCount := 50 } (1/1000) []
     (by norm_num [memsInit]) (by norm_num [memsInit])
     (by norm_num [gyroOnlineInit]) (by norm_num [gyroOnlineInit])
     (by norm_num [gyroMouseInit, gyroMouseCfgEx]) (by norm_num [gyroMouseInit, gyroMouseCfgEx])⟩

/-- Counterexample to C7 as stated: during calibration the rate limiter is
not consulted.  The second packet arrives 1/1000 s after the first accepted
one — less than the 1/250 s update interval — yet `update_mems` still
mutates the state (the accumulator count advances from 1 to 2). -/
theorem c7_counterexample :
    (1001:ℚ)/1000 - 1 < ({} : GyroMouseOnlineConfig).update_interval_sec ∧
    ((gyroOnlineUpdate {} gyroOnlineInit 1
        [{ gx := .fin 1, gy := .fin 0, gz := .fin 1 }]).state).accumCount = 1 ∧
    ((gyroOnlineUpdate {} ((gyroOnlineUpdate {} gyroOnlineInit 1
        [{ gx := .fin 1, gy := .fin 0, gz := .fin 1 }]).state) (1001/1000)
        [{ gx := .fin 1, gy := .fin 0, gz := .fin 1 }]).state).accumCount = 2 := by
  refine ⟨by norm_num, ?_, ?_⟩ <;>
    norm_num [gyroOnlineUpdate, gyroOnlineCont, gyroOnlineShape, emitClamped,
      clampStep, gyroOnlineInit, FVal.isFinite, FVal.val, List.getLast?,
      abs_of_pos, abs_of_neg]

theorem joystickCurve15_zero (dz : ℝ) : joystickCurve15 dz 0 = 0 := if_pos rfl

theorem joystickCurve16_zero : joystickCurve16 0 = 0 := if_pos rfl

theorem emitClamped_fst_zero {α : Type} [LinearOrderedField α] (m dy : α)
    (hm : 0 ≤ m) : emitFstZero (emitClamped m 0 dy) := by
  unfold emitClamped
  dsimp only
  rw [clampStep_zero m hm]
  split
  · rfl
  · trivial

/-- C4 (amended): in every controller variant, if the deviation magnitude on
an axis is below the dead-zone threshold and the stored smoothed velocity on
that axis is zero (with the axis not swapped and `max_step_px ≥ 0`), then
that axis's stored velocity stays exactly 0 and the displacement emitted on
that axis is exactly 0.  Stated on the shaping step of each variant for the
x axis (the axes are symmetric); for `MemsMouseMode` the deviation is the
one recomputed after the re-centring step, as in the source.  (The claim as
stated — for every prior velocity state — fails, because the exponential
smoothing retains the previous velocity after the dead zone zeroes the
deviation; see the counterexample.) -/
theorem c4_deadzone_zero_axis
    (cfg1 : MemsMouseConfig) (s1 : MemsMouseState) (ax ay vy0 : ℝ)
    (cfg2 : GyroMouseOnlineConfig) (s2 : GyroOnlineState) (dx2 dy2 : ℚ)
    (cfg3 : GyroMouseConfig) (s3 : GyroMouseState) (dx3 dy3 vya : ℝ)
    (hm1 : 0 ≤ cfg1.max_step_px) (hsw : cfg1.swap_axes = false)
    (hdev1 : |(memsRecenter cfg1 s1.neutralX s1.neutralY ax ay).2.2.1| <
      cfg1.deadzone_g)
    (hm2 : 0 ≤ cfg2.max_step_px) (hvx2 : s2.vx = 0)
    (hdev2 : |dx2| < cfg2.deadzone_deg)
    (hm3 : 0 ≤ cfg3.max_step_px) (hdev3 : |dx3| < cfg3.deadzone_deg) :
    ((memsShape cfg1 s1 ax ay 0 vy0).state.vxg = 0 ∧
      emitFstZero (memsShape cfg1 s1 ax ay 0 vy0).emit) ∧
    ((gyroOnlineShape cfg2 s2 dx2 dy2).state.vx = 0 ∧
      emitFstZero (gyroOnlineShape cfg2 s2 dx2 dy2).emit) ∧
    ((gyroShape cfg3 s3 dx3 dy3 0 vya).state.vx = 0 ∧
      emitFstZero (gyroShape cfg3 s3 dx3 dy3 0 vya).emit) := by
  refine ⟨⟨?_, ?_⟩, ⟨?_, ?_⟩, ⟨?_, ?_⟩⟩
  · simp [memsShape, if_pos hdev1, joystickCurve15_zero, hsw, ite_self]
  · simp only [memsShape, if_pos hdev1, joystickCurve15_zero, hsw, mul_zero,
      add_zero, abs_zero, Bool.false_eq_true, if_false, ite_self, neg_zero,
      zero_mul]
    exact emitClamped_fst_zero _ _ hm1
  · simp [gyroOnlineShape, if_pos hdev2, hvx2]
  · simp only [gyroOnlineShape, if_pos hdev2, hvx2, mul_zero, add_zero,
      zero_mul, neg_zero]
    exact emitClamped_fst_zero _ _ hm2
  · simp [gyroShape, if_pos hdev3]
  · simp only [gyroShape, if_pos hdev3, mul_zero, add_zero, zero_mul,
      joystickCurve16_zero, neg_zero]
    exact emitClamped_fst_zero _ _ hm3

/-- Witness for C4 (amended) at zero deviations and zero stored velocity. -/
theorem c4_witness :
    (0 ≤ ({} : MemsMouseConfig).max_step_px ∧
     ({} : MemsMouseConfig).swap_axes = false ∧
     |(memsRecenter {} memsInit.neutralX memsInit.neutralY 0 0).2.2.1| <
       ({} : MemsMouseConfig).deadzone_g ∧
     0 ≤ ({} : GyroMouseOnlineConfig).max_step_px ∧
     gyroOnlineInit.vx = 0 ∧
     |(0:ℚ)| < ({} : GyroMouseOnlineConfig).deadzone_deg ∧
     0 ≤ gyroMouseCfgEx.max_step_px ∧
     |(0:ℝ)| < gyroMouseCfgEx.deadzone_deg) ∧
    (((memsShape {} memsInit 0 0 0 0).state.vxg = 0 ∧
       emitFstZero (memsShape {} memsInit 0 0 0 0).emit) ∧
     ((gyroOnlineShape {} gyroOnlineInit 0 0).state.vx = 0 ∧
       emitFstZero (gyroOnlineShape {} gyroOnlineInit 0 0).emit) ∧
     ((gyroShape gyroMouseCfgEx gyroMouseInit 0 0 0 0).state.vx = 0 ∧
       emitFstZero (gyroShape gyroMouseCfgEx gyroMouseInit 0 0 0 0).emit)) :=
  ⟨⟨by norm_num, rfl, by norm_num [memsRecenter, memsInit], by norm_num, rfl,
    by norm_num, by norm_num [gyroMouseCfgEx], by norm_num [gyroMouseCfgEx]⟩,
   c4_deadzone_zero_axis {} memsInit 0 0 0 {} gyroOnlineInit 0 0
     gyroMouseCfgEx gyroMouseInit 0 0 0
     (by norm_num) rfl (by norm_num [memsRecenter, memsInit]) (by norm_num) rfl
     (by norm_num) (by norm_num [gyroMouseCfgEx]) (by norm_num [gyroMouseCfgEx])⟩

/-- Counterexample to C4 as stated: with a prior stored velocity of 10 on
the x axis, a locked `GyroMouseOnlineMode` receives a deviation of 3/2
degrees — inside the dead zone of 2 — yet the step emits the x displacement
−76/5 ≠ 0, because the exponential smoothing retains the old velocity. -/
theorem c4_counterexample :
    |(3:ℚ)/2 - ({ gyroOnlineInit with accumCount := 50, vx := 10, lastGx := 50 } :
      GyroOnlineState).neutralGz| < ({} : GyroMouseOnlineConfig).deadzone_deg ∧
    (gyroOnlineUpdate {} { gyroOnlineInit with accumCount := 50, vx := 10, lastGx := 50 } 1
      [{ gx := .fin (3/2), gy := .fin 0, gz := .fin (3/2) }]).emit =
      some (-76/5, 0) ∧
    ((-76:ℚ)/5) ≠ 0 := by
  refine ⟨by norm_num [gyroOnlineInit, abs_of_pos], ?_, by norm_num⟩
  norm_num [gyroOnlineUpdate, gyroOnlineCont, gyroOnlineShape, emitClamped,
    clampStep, gyroOnlineInit, FVal.isFinite, FVal.val, List.getLast?,
    abs_of_pos, abs_of_neg]

/-- C8 (amended): the order of the response curve and the smoothing differs
between the variants.  `MemsMouseMode` applies the power-1.5 curve to the
dead-zone-adjusted deviation and then smooths the curved value into the
stored velocity (`velocity = (1−α)·velocity + α·curved`, as the claim
states).  `GyroMouseMode` does the opposite: it smooths the
dead-zone-adjusted deviation first (`velocity = (1−α)·velocity + α·dev`)
and applies its power-1.6 curve to the smoothed velocity only when mapping
to pixels.  `GyroMouseOnlineMode` applies no curve at all: it smooths the
deviation directly and multiplies by the extra damping 0.95.  (The claim as
stated — curve first, then smoothing, in every variant — fails on
`GyroMouseMode`; see the counterexample.) -/
theorem c8_pipeline_order
    (cfg1 : MemsMouseConfig) (s1 : MemsMouseState) (ax ay vx0 vy0 : ℝ)
    (cfg2 : GyroMouseOnlineConfig) (s2 : GyroOnlineState) (dx2 dy2 : ℚ)
    (cfg3 : GyroMouseConfig) (s3 : GyroMouseState) (dx3 dy3 vxa vya : ℝ) :
    (memsShape cfg1 s1 ax ay vx0 vy0).state.vxg =
      (1 - cfg1.smooth_alpha) * vx0 + cfg1.smooth_alpha *
        joystickCurve15 cfg1.deadzone_g
          (if |(memsRecenter cfg1 s1.neutralX s1.neutralY ax ay).2.2.1| <
              cfg1.deadzone_g then 0
           else (memsRecenter cfg1 s1.neutralX s1.neutralY ax ay).2.2.1) ∧
    (gyroShape cfg3 s3 dx3 dy3 vxa vya).state.vx =
      (1 - cfg3.smooth_alpha) * vxa + cfg3.smooth_alpha *
        (if |dx3| < cfg3.deadzone_deg then 0 else dx3) ∧
    (gyroShape cfg3 s3 dx3 dy3 vxa vya).emit =
      emitClamped cfg3.max_step_px
        (-(joystickCurve16 ((1 - cfg3.smooth_alpha) * vxa + cfg3.smooth_alpha *
            (if |dx3| < cfg3.deadzone_deg then 0 else dx3))) *
          cfg3.sensitivity_x)
        (-(joystickCurve16 ((1 - cfg3.smooth_alpha) * vya + cfg3.smooth_alpha *
            (if |dy3| < cfg3.deadzone_deg then 0 else dy3))) *
          cfg3.sensitivity_y) ∧
    (gyroOnlineShape cfg2 s2 dx2 dy2).state.vx =
      ((1 - cfg2.smooth_alpha) * s2.vx + cfg2.smooth_alpha *
        (if |dx2| < cfg2.deadzone_deg then 0 else dx2)) * (19/20) :=
  ⟨rfl, rfl, rfl, rfl⟩

/-- Counterexample to C8 as stated: in `GyroMouseMode` (smoothing weight
1/2, dead zone 2, prior velocity 0) a deviation of 32 degrees leaves the
stored velocity at `(1−α)·0 + α·32 = 16`, whereas the claimed rule
`velocity = (1−α)·velocity + α·curved` with `curved = 32^1.6 = 256` would
give 128 — so the stored velocity is not the smoothed curved value. -/
theorem c8_counterexample :
    (gyroShape { gyroMouseCfgEx with smooth_alpha := 1/2 } gyroMouseInit
      32 32 0 0).state.vx = 16 ∧
    (1 - ({ gyroMouseCfgEx with smooth_alpha := 1/2 } :
        GyroMouseConfig).smooth_alpha) * 0 +
      ({ gyroMouseCfgEx with smooth_alpha := 1/2 } :
        GyroMouseConfig).smooth_alpha *
      joystickCurve16 (if |(32:ℝ)| <
          ({ gyroMouseCfgEx with smooth_alpha := 1/2 } :
            GyroMouseConfig).deadzone_deg then 0 else 32) = 128 ∧
    (16:ℝ) ≠ 128 := by
  have h32 : (32:ℝ) ^ ((8:ℝ)/5) = 256 := by
    rw [show (32:ℝ) = 2 ^ (5:ℕ) by norm_num, ← Real.rpow_natCast 2 5,
      ← Real.rpow_mul (by norm_num : (0:ℝ) ≤ 2),
      show ((5:ℕ):ℝ) * (8/5) = ((8:ℕ):ℝ) by push_cast; ring, Real.rpow_natCast]
    norm_num
  refine ⟨?_, ?_, by norm_num⟩
  · norm_num [gyroShape, gyroMouseCfgEx, abs_of_pos]
  · norm_num [joystickCurve16, gyroMouseCfgEx, abs_of_pos, h32]

/-! ## Cooldown-chain machinery (C2) -/

theorem clickStep_lastTs (cfg : MuscleClickConfig) (s : MuscleClickState)
    (c : ClickCall) :
    ((clickStep cfg s c).2 = none →
      (clickStep cfg s c).1.lastClickTs = s.lastClickTs) ∧
    (∀ p, (clickStep cfg s c).2 = some p →
      (clickStep cfg s c).1.lastClickTs = p.1 ∧
      s.lastClickTs + cfg.cooldown_sec ≤ p.1) := by
  cases c with
  | env d now =>
    cases d with
    | nil => exact ⟨fun _ => rfl, fun p h => by simp [clickStep, updateFromEnvelope] at h⟩
    | cons x xs =>
      simp only [clickStep, updateFromEnvelope]
      split_ifs with h1 h2
      · exact ⟨fun _ => rfl, fun p h => by simp at h⟩
      · exact ⟨fun _ => rfl, fun p h => by simp at h⟩
      · refine ⟨fun h => by simp at h, fun p h => ?_⟩
        simp only [Option.map_some'] at h
        injection h with h
        subst h
        exact ⟨rfl, by push_neg at h2; linarith⟩
  | sig d now =>
    cases d with
    | nil => exact ⟨fun _ => rfl, fun p h => by simp [clickStep, updateFromSignal] at h⟩
    | cons x xs =>
      simp only [clickStep, updateFromSignal, handleDurationBasedClick,
        handleSimpleClick]
      split_ifs
      all_goals first
        | exact ⟨fun _ => rfl, fun p h => by simp at h⟩
        | (refine ⟨fun h => by simp at h, fun p h => ?_⟩
           simp only [Option.map_some'] at h
           injection h with h
           subst h
           exact ⟨rfl, by linarith⟩)

theorem clickRun_chain (cfg : MuscleClickConfig) :
    ∀ (calls : List ClickCall) (s : MuscleClickState),
      ClickChain cfg.cooldown_sec s.lastClickTs (clickRun cfg s calls).2 := by
  intro calls
  induction calls with
  | nil => intro s; trivial
  | cons c cs ih =>
    intro s
    have hstep := clickStep_lastTs cfg s c
    cases hr : (clickStep cfg s c).2 with
    | none =>
      have h1 := hstep.1 hr
      simp only [clickRun, hr, Option.toList_none, List.nil_append]
      have := ih (clickStep cfg s c).1
      rwa [h1] at this
    | some p =>
      obtain ⟨hts, hge⟩ := hstep.2 p hr
      simp only [clickRun, hr, Option.toList_some, List.cons_append,
        List.nil_append]
      refine ⟨hge, ?_⟩
      have := ih (clickStep cfg s c).1
      rwa [hts] at this

theorem ClickChain_head (c t : ℚ) (l : List (ℚ × GestureEvent)) (hc : 0 ≤ c)
    (h : ClickChain c t l) :
    ∀ k (hk : k < l.length), t + c ≤ (l.get ⟨k, hk⟩).1 := by
  induction l generalizing t with
  | nil => intro k hk; exact absurd hk (by simp)
  | cons e rest ih =>
    intro k hk
    obtain ⟨h1, h2⟩ := h
    cases k with
    | zero => exact h1
    | succ k =>
      have hk2 : k < rest.length := by simpa using hk
      have := ih e.1 h2 k hk2
      have : e.1 + c ≤ (rest.get ⟨k, hk2⟩).1 := this
      calc t + c ≤ e.1 := h1
        _ ≤ e.1 + c := by linarith
        _ ≤ (rest.get ⟨k, hk2⟩).1 := this

theorem ClickChain_pairwise (c t : ℚ) (l : List (ℚ × GestureEvent)) (hc : 0 ≤ c)
    (h : ClickChain c t l) :
    ∀ i j (hij : i < j) (hj : j < l.length),
      (l.get ⟨i, lt_trans hij hj⟩).1 + c ≤ (l.get ⟨j, hj⟩).1 := by
  induction l generalizing t with
  | nil => intro i j hij hj; exact absurd hj (by simp)
  | cons e rest ih =>
    intro i j hij hj
    obtain ⟨h1, h2⟩ := h
    cases i with
    | zero =>
      cases j with
      | zero => exact absurd hij (lt_irrefl 0)
      | succ j =>
        exact ClickChain_head c e.1 rest hc h2 j (by simpa using hj)
    | succ i =>
      cases j with
      | zero => exact absurd hij (by omega)
      | succ j => exact ih e.1 h2 i j (by omega) (by simpa using hj)

/-- C2: over any sequence of classifier calls — envelope or signal packets,
duration-based or impulse configuration, arbitrary (even non-monotone) call
times — any two emitted actions are at least `cooldown_sec` apart, because
both input paths gate on, and then overwrite, the one shared last-action
timestamp.  (Stated for a nonnegative cooldown, which the shared timestamp
telescopes across drag toggles and both paths.) -/
theorem c2_cooldown_between_actions (cfg : MuscleClickConfig)
    (s : MuscleClickState) (calls : List ClickCall)
    (hc : 0 ≤ cfg.cooldown_sec) (i j : ℕ) (hij : i < j)
    (hj : j < (clickRun cfg s calls).2.length) :
    cfg.cooldown_sec ≤
      ((clickRun cfg s calls).2.getD j (0, GestureEvent.leftClick)).1 -
      ((clickRun cfg s calls).2.getD i (0, GestureEvent.leftClick)).1 := by
  have hp := ClickChain_pairwise cfg.cooldown_sec s.lastClickTs _ hc
    (clickRun_chain cfg calls s) i j hij hj
  rw [List.getD_eq_get _ _ hj, List.getD_eq_get _ _ (lt_trans hij hj)]
  linarith

/-- Witness for C2: two 300 µV signal packets at times 1 and 2 emit a drag
start and a drag end, 1 s ≥ cooldown apart. -/
theorem c2_witness :
    (0 ≤ ({} : MuscleClickConfig).cooldown_sec ∧ (0:ℕ) < 1 ∧
     1 < (clickRun {} muscleClickInit
       [ClickCall.sig [[FVal.fin (3/10000)]] 1,
        ClickCall.sig [[FVal.fin (3/10000)]] 2]).2.length) ∧
    ({} : MuscleClickConfig).cooldown_sec ≤
      ((clickRun {} muscleClickInit
        [ClickCall.sig [[FVal.fin (3/10000)]] 1,
         ClickCall.sig [[FVal.fin (3/10000)]] 2]).2.getD 1
        (0, GestureEvent.leftClick)).1 -
      ((clickRun {} muscleClickInit
        [ClickCall.sig [[FVal.fin (3/10000)]] 1,
         ClickCall.sig [[FVal.fin (3/10000)]] 2]).2.getD 0
        (0, GestureEvent.leftClick)).1 := by
  have hlen : (clickRun {} muscleClickInit
      [ClickCall.sig [[FVal.fin (3/10000)]] 1,
       ClickCall.sig [[FVal.fin (3/10000)]] 2]).2 =
      [(1, GestureEvent.dragStart), (2, GestureEvent.dragEnd)] := by
    norm_num [clickRun, clickStep, updateFromSignal, signalMax, pyMaxAux,
      FVal.microvolts, FVal.abs, FVal.scale, FVal.bge, FVal.blt,
      handleDurationBasedClick, pushBuffer, muscleClickInit, abs_of_pos,
      abs_of_neg]
  refine ⟨⟨by norm_num, by norm_num, ?_⟩, ?_⟩
  · rw [hlen]; norm_num
  · exact c2_cooldown_between_actions {} muscleClickInit _ (by norm_num) 0 1
      (by norm_num) (by rw [hlen]; norm_num)

/-! ## Drag-alternation machinery (C5) -/

theorem clickStep_drag (cfg : MuscleClickConfig) (s : MuscleClickState)
    (c : ClickCall) :
    ((clickStep cfg s c).2 = none →
      (clickStep cfg s c).1.isDragging = s.isDragging) ∧
    (∀ ts, (clickStep cfg s c).2 = some (ts, GestureEvent.leftClick) →
      (clickStep cfg s c).1.isDragging = s.isDragging) ∧
    (∀ ts, (clickStep cfg s c).2 = some (ts, GestureEvent.rightClick) →
      (clickStep cfg s c).1.isDragging = s.isDragging) ∧
    (∀ ts, (clickStep cfg s c).2 = some (ts, GestureEvent.dragStart) →
      s.isDragging = false ∧ (clickStep cfg s c).1.isDragging = true) ∧
    (∀ ts, (clickStep cfg s c).2 = some (ts, GestureEvent.dragEnd) →
      s.isDragging = true ∧ (clickStep cfg s c).1.isDragging = false) := by
  cases c with
  | env d now =>
    cases d with
    | nil =>
      exact ⟨fun _ => rfl, fun ts h => rfl, fun ts h => by simp [clickStep, updateFromEnvelope] at h,
        fun ts h => by simp [clickStep, updateFromEnvelope] at h,
        fun ts h => by simp [clickStep, updateFromEnvelope] at h⟩
    | cons x xs =>
      simp only [clickStep, updateFromEnvelope]
      split_ifs with h1 h2
      all_goals exact ⟨fun _ => rfl, fun ts h => rfl,
        fun ts h => by simp at h, fun ts h => by simp at h,
        fun ts h => by simp at h⟩
  | sig d now =>
    cases d with
    | nil =>
      exact ⟨fun _ => rfl, fun ts h => rfl, fun ts h => by simp [clickStep, updateFromSignal] at h,
        fun ts h => by simp [clickStep, updateFromSignal] at h,
        fun ts h => by simp [clickStep, updateFromSignal] at h⟩
    | cons x xs =>
      simp only [clickStep, updateFromSignal, handleDurationBasedClick,
        handleSimpleClick]
      split_ifs
      all_goals refine ⟨fun h => ?_, fun ts h => ?_, fun ts h => ?_,
        fun ts h => ?_, fun ts h => ?_⟩
      all_goals first
        | rfl
        | (simp at h; done)
        | (refine ⟨?_, rfl⟩; simp_all)

theorem clickRun_alt (cfg : MuscleClickConfig) :
    ∀ (calls : List ClickCall) (s : MuscleClickState),
      AltFrom s.isDragging
        (((clickRun cfg s calls).2.map Prod.snd).filter isDragEvent) := by
  intro calls
  induction calls with
  | nil => intro s; trivial
  | cons c cs ih =>
    intro s
    have hstep := clickStep_drag cfg s c
    cases hr : (clickStep cfg s c).2 with
    | none =>
      simp only [clickRun, hr, Option.toList_none, List.nil_append]
      have h1 := hstep.1 hr
      have := ih (clickStep cfg s c).1
      rwa [h1] at this
    | some p =>
      obtain ⟨ts, e⟩ := p
      simp only [clickRun, hr, Option.toList_some, List.cons_append,
        List.nil_append, List.map_cons, List.filter_cons]
      cases e with
      | leftClick =>
        have h1 := hstep.2.1 ts hr
        simp only [isDragEvent]
        have := ih (clickStep cfg s c).1
        rwa [h1] at this
      | rightClick =>
        have h1 := hstep.2.2.1 ts hr
        simp only [isDragEvent]
        have := ih (clickStep cfg s c).1
        rwa [h1] at this
      | dragStart =>
        obtain ⟨h0, h1⟩ := hstep.2.2.2.1 ts hr
        simp only [isDragEvent, h0]
        have := ih (clickStep cfg s c).1
        rw [h1] at this
        exact ⟨rfl, this⟩
      | dragEnd =>
        obtain ⟨h0, h1⟩ := hstep.2.2.2.2 ts hr
        simp only [isDragEvent, h0]
        have := ih (clickStep cfg s c).1
        rw [h1] at this
        exact ⟨rfl, this⟩

theorem AltFrom_getD (b : Bool) (l : List GestureEvent) (h : AltFrom b l) :
    ∀ k (hk : k < l.length),
      l.getD k GestureEvent.leftClick =
        (if k % 2 = 0 then (if b then GestureEvent.dragEnd else GestureEvent.dragStart)
         else (if b then GestureEvent.dragStart else GestureEvent.dragEnd)) := by
  induction l generalizing b with
  | nil => intro k hk; exact absurd hk (by simp)
  | cons e rest ih =>
    intro k hk
    obtain ⟨h1, h2⟩ := h
    cases k with
    | zero => simpa using h1
    | succ k =>
      have hk2 : k < rest.length := by simpa using hk
      have hrec := ih (!b) h2 k hk2
      rcases Nat.even_or_odd k with he | ho
      · have hk0 : k % 2 = 0 := Nat.even_iff.mp he
        have hk1 : (k + 1) % 2 = 1 := by omega
        rw [List.getD_cons_succ, hrec, hk0, hk1]
        cases b <;> simp
      · have hk0 : k % 2 = 1 := Nat.odd_iff.mp ho
        have hk1 : (k + 1) % 2 = 0 := by omega
        rw [List.getD_cons_succ, hrec, hk0, hk1]
        cases b <;> simp

/-- C5: in duration-based mode, starting from a non-dragging state, the drag
events among the emitted actions strictly alternate — the k-th drag event is
`DragStart` for even k and `DragEnd` for odd k — so two consecutive
hold-threshold crossings that pass the cooldown yield `DragStart` then
`DragEnd`, and `DragStart` is never emitted twice in a row. -/
theorem c5_drag_alternation (cfg : MuscleClickConfig) (s : MuscleClickState)
    (calls : List ClickCall) (hd : s.isDragging = false)
    (hdur : cfg.use_duration_detection = true) (k : ℕ)
    (hk : k < (((clickRun cfg s calls).2.map Prod.snd).filter
      isDragEvent).length) :
    (((clickRun cfg s calls).2.map Prod.snd).filter isDragEvent).getD k
        GestureEvent.leftClick =
      (if k % 2 = 0 then GestureEvent.dragStart else GestureEvent.dragEnd) := by
  have h := clickRun_alt cfg calls s
  rw [hd] at h
  have := AltFrom_getD false _ h k hk
  simpa using this

/-- Witness for C5: the two-packet trace emits exactly `[DragStart,
DragEnd]`; at k = 1 the drag event is `DragEnd`. -/
theorem c5_witness :
    (muscleClickInit.isDragging = false ∧
     ({} : MuscleClickConfig).use_duration_detection = true ∧
     1 < ((((clickRun {} muscleClickInit
       [ClickCall.sig [[FVal.fin (3/10000)]] 1,
        ClickCall.sig [[FVal.fin (3/10000)]] 2]).2.map Prod.snd).filter
        isDragEvent).length)) ∧
    ((((clickRun {} muscleClickInit
       [ClickCall.sig [[FVal.fin (3/10000)]] 1,
        ClickCall.sig [[FVal.fin (3/10000)]] 2]).2.map Prod.snd).filter
        isDragEvent).getD 1 GestureEvent.leftClick = GestureEvent.dragEnd) := by
  have hlen : (clickRun {} muscleClickInit
      [ClickCall.sig [[FVal.fin (3/10000)]] 1,
       ClickCall.sig [[FVal.fin (3/10000)]] 2]).2 =
      [(1, GestureEvent.dragStart), (2, GestureEvent.dragEnd)] := by
    norm_num [clickRun, clickStep, updateFromSignal, signalMax, pyMaxAux,
      FVal.microvolts, FVal.abs, FVal.scale, FVal.bge, FVal.blt,
      handleDurationBasedClick, pushBuffer, muscleClickInit, abs_of_pos,
      abs_of_neg]
  have hk : 1 < ((((clickRun {} muscleClickInit
      [ClickCall.sig [[FVal.fin (3/10000)]] 1,
       ClickCall.sig [[FVal.fin (3/10000)]] 2]).2.map Prod.snd).filter
      isDragEvent).length) := by
    rw [hlen]; norm_num [isDragEvent]
  refine ⟨⟨rfl, rfl, hk⟩, ?_⟩
  have := c5_drag_alternation {} muscleClickInit
    [ClickCall.sig [[FVal.fin (3/10000)]] 1,
     ClickCall.sig [[FVal.fin (3/10000)]] 2] rfl rfl 1 hk
  simpa using this

/-! ## Calibration machinery (C3) -/

theorem memsUpdate_calib_step (cfg : MemsMouseConfig) (s : MemsMouseState)
    (now : ℝ) (p : List MemsSample) (m : MemsSample)
    (hlast : p.getLast? = some m)
    (hf1 : m.ax.isFinite = true) (hf2 : m.ay.isFinite = true)
    (hf3 : m.az.isFinite = true)
    (hlt : s.accumCount < cfg.neutral_samples)
    (hne : s.accumCount + 1 ≠ cfg.neutral_samples) :
    memsUpdate cfg s now p = { state := memsCalibBump s m } := by
  simp [memsUpdate, memsCalibBump, hlast, hf1, hf2, hf3, hlt, hne]

theorem memsUpdate_lock_step (cfg : MemsMouseConfig) (s : MemsMouseState)
    (now : ℝ) (p : List MemsSample) (m : MemsSample)
    (hlast : p.getLast? = some m)
    (hf1 : m.ax.isFinite = true) (hf2 : m.ay.isFinite = true)
    (hf3 : m.az.isFinite = true)
    (hlt : s.accumCount < cfg.neutral_samples)
    (heq : s.accumCount + 1 = cfg.neutral_samples) :
    memsUpdate cfg s now p = { state := memsLockState s m, locked := true } := by
  simp [memsUpdate, memsCalibBump, memsLockState, hlast, hf1, hf2, hf3, hlt, heq]

theorem memsRun_calib (cfg : MemsMouseConfig) :
    ∀ (ms : List MemsSample) (calls : List (ℝ × List MemsSample))
      (s : MemsMouseState),
      List.Forall₂ (fun (c : ℝ × List MemsSample) m => c.2.getLast? = some m)
        calls ms →
      (∀ m ∈ ms, m.ax.isFinite = true ∧ m.ay.isFinite = true ∧
        m.az.isFinite = true) →
      ms ≠ [] →
      s.accumCount + ms.length = cfg.neutral_samples →
      (memsRun cfg s calls).1.neutralX =
        (s.accumX + (ms.map fun m => m.ax.val).sum) / (cfg.neutral_samples : ℝ) ∧
      (memsRun cfg s calls).1.neutralY =
        (s.accumY + (ms.map fun m => m.ay.val).sum) / (cfg.neutral_samples : ℝ) ∧
      (memsRun cfg s calls).1.neutralZ =
        (s.accumZ + (ms.map fun m => m.az.val).sum) / (cfg.neutral_samples : ℝ) ∧
      ((memsRun cfg s calls).2.filter id).length = 1 := by
  intro ms calls s hforall
  induction hforall generalizing s with
  | nil => intro _ hne _; exact absurd rfl hne
  | cons hrel hrest ih =>
    rename_i c m calls2 ms2
    intro hfin _ hcount
    obtain ⟨hf1, hf2, hf3⟩ := hfin m (List.mem_cons_self m ms2)
    have hlt : s.accumCount < cfg.neutral_samples := by
      simp only [List.length_cons] at hcount
      omega
    cases ms2 with
    | nil =>
      cases hrest
      have heq : s.accumCount + 1 = cfg.neutral_samples := by
        simpa using hcount
      have hstep := memsUpdate_lock_step cfg s c.1 c.2 m hrel hf1 hf2 hf3 hlt heq
      simp only [memsRun, hstep, List.map_cons, List.map_nil, List.sum_cons,
        List.sum_nil, add_zero, List.filter_cons]
      rw [← heq]
      simp [memsLockState, memsCalibBump]
    | cons m2 ms3 =>
      have hne2 : s.accumCount + 1 ≠ cfg.neutral_samples := by
        simp only [List.length_cons] at hcount
        omega
      have hstep := memsUpdate_calib_step cfg s c.1 c.2 m hrel hf1 hf2 hf3 hlt hne2
      have hcount2 : (memsCalibBump s m).accumCount + (m2 :: ms3).length =
          cfg.neutral_samples := by
        simp only [memsCalibBump, List.length_cons] at hcount ⊢
        omega
      have hih := ih (memsCalibBump s m)
        (fun x hx => hfin x (List.mem_cons_of_mem m hx)) (by simp) hcount2
      simp only [memsRun, hstep, List.filter_cons]
      refine ⟨?_, ?_, ?_, ?_⟩
      · rw [hih.1]
        simp [memsCalibBump, List.sum_cons, add_assoc]
      · rw [hih.2.1]
        simp [memsCalibBump, List.sum_cons, add_assoc]
      · rw [hih.2.2.1]
        simp [memsCalibBump, List.sum_cons, add_assoc]
      · simpa using hih.2.2.2

theorem gyroOnlineUpdate_calib_step (cfg : GyroMouseOnlineConfig)
    (s : GyroOnlineState) (now : ℚ) (p : List (GyroSample ℚ)) (m : GyroSample ℚ)
    (hlast : p.getLast? = some m)
    (hf1 : m.gx.isFinite = true) (hf2 : m.gz.isFinite = true)
    (hlt : s.accumCount < cfg.neutral_samples)
    (hne : s.accumCount + 1 ≠ cfg.neutral_samples) :
    gyroOnlineUpdate cfg s now p = { state := gyroOnlineCalibBump s m } := by
  simp [gyroOnlineUpdate, gyroOnlineCalibBump, hlast, hf1, hf2, hlt, hne]

theorem gyroOnlineUpdate_lock_step (cfg : GyroMouseOnlineConfig)
    (s : GyroOnlineState) (now : ℚ) (p : List (GyroSample ℚ)) (m : GyroSample ℚ)
    (hlast : p.getLast? = some m)
    (hf1 : m.gx.isFinite = true) (hf2 : m.gz.isFinite = true)
    (hlt : s.accumCount < cfg.neutral_samples)
    (heq : s.accumCount + 1 = cfg.neutral_samples) :
    gyroOnlineUpdate cfg s now p =
      { state := gyroOnlineLockState s m, locked := true } := by
  simp [gyroOnlineUpdate, gyroOnlineCalibBump, gyroOnlineLockState, hlast,
    hf1, hf2, hlt, heq]

theorem gyroOnlineRun_calib (cfg : GyroMouseOnlineConfig) :
    ∀ (ms : List (GyroSample ℚ)) (calls : List (ℚ × List (GyroSample ℚ)))
      (s : GyroOnlineState),
      List.Forall₂ (fun (c : ℚ × List (GyroSample ℚ)) m =>
        c.2.getLast? = some m) calls ms →
      (∀ m ∈ ms, m.gx.isFinite = true ∧ m.gz.isFinite = true) →
      ms ≠ [] →
      s.accumCount + ms.length = cfg.neutral_samples →
      (gyroOnlineRun cfg s calls).1.neutralGx =
        (s.accumGx + (ms.map fun m => m.gx.val).sum) / (cfg.neutral_samples : ℚ) ∧
      (gyroOnlineRun cfg s calls).1.neutralGz =
        (s.accumGz + (ms.map fun m => m.gz.val).sum) / (cfg.neutral_samples : ℚ) ∧
      ((gyroOnlineRun cfg s calls).2.filter id).length = 1 := by
  intro ms calls s hforall
  induction hforall generalizing s with
  | nil => intro _ hne _; exact absurd rfl hne
  | cons hrel hrest ih =>
    rename_i c m calls2 ms2
    intro hfin _ hcount
    obtain ⟨hf1, hf2⟩ := hfin m (List.mem_cons_self m ms2)
    have hlt : s.accumCount < cfg.neutral_samples := by
      simp only [List.length_cons] at hcount
      omega
    cases ms2 with
    | nil =>
      cases hrest
      have heq : s.accumCount + 1 = cfg.neutral_samples := by
        simpa using hcount
      have hstep := gyroOnlineUpdate_lock_step cfg s c.1 c.2 m hrel hf1 hf2 hlt heq
      simp only [gyroOnlineRun, hstep, List.map_cons, List.map_nil,
        List.sum_cons, List.sum_nil, add_zero, List.filter_cons]
      rw [← heq]
      simp [gyroOnlineLockState, gyroOnlineCalibBump]
    | cons m2 ms3 =>
      have hne2 : s.accumCount + 1 ≠ cfg.neutral_samples := by
        simp only [List.length_cons] at hcount
        omega
      have hstep := gyroOnlineUpdate_calib_step cfg s c.1 c.2 m hrel hf1 hf2 hlt hne2
      have hcount2 : (gyroOnlineCalibBump s m).accumCount + (m2 :: ms3).length =
          cfg.neutral_samples := by
        simp only [gyroOnlineCalibBump, List.length_cons] at hcount ⊢
        omega
      have hih := ih (gyroOnlineCalibBump s m)
        (fun x hx => hfin x (List.mem_cons_of_mem m hx)) (by simp) hcount2
      simp only [gyroOnlineRun, hstep, List.filter_cons]
      refine ⟨?_, ?_, ?_⟩
      · rw [hih.1]
        simp [gyroOnlineCalibBump, List.sum_cons, add_assoc]
      · rw [hih.2.1]
        simp [gyroOnlineCalibBump, List.sum_cons, add_assoc]
      · simpa using hih.2.2

theorem gyroUpdate_calib_step (cfg : GyroMouseConfig) (s : GyroMouseState)
    (now : ℝ) (p : List (GyroSample ℝ)) (m : GyroSample ℝ)
    (hlast : p.getLast? = some m)
    (hf1 : m.gx.isFinite = true) (hf2 : m.gz.isFinite = true)
    (hlt : s.accumCount < cfg.neutral_samples)
    (hne : s.accumCount + 1 ≠ cfg.neutral_samples) :
    gyroUpdate cfg s now p = { state := gyroCalibBump s m } := by
  simp [gyroUpdate, gyroCalibBump, hlast, hf1, hf2, hlt, hne]

theorem gyroUpdate_lock_step (cfg : GyroMouseConfig) (s : GyroMouseState)
    (now : ℝ) (p : List (GyroSample ℝ)) (m : GyroSample ℝ)
    (hlast : p.getLast? = some m)
    (hf1 : m.gx.isFinite = true) (hf2 : m.gz.isFinite = true)
    (hlt : s.accumCount < cfg.neutral_samples)
    (heq : s.accumCount + 1 = cfg.neutral_samples) :
    gyroUpdate cfg s now p = { state := gyroLockState s m, locked := true } := by
  simp [gyroUpdate, gyroCalibBump, gyroLockState, hlast, hf1, hf2, hlt, heq]

theorem gyroRun_calib (cfg : GyroMouseConfig) :
    ∀ (ms : List (GyroSample ℝ)) (calls : List (ℝ × List (GyroSample ℝ)))
      (s : GyroMouseState),
      List.Forall₂ (fun (c : ℝ × List (GyroSample ℝ)) m =>
        c.2.getLast? = some m) calls ms →
      (∀ m ∈ ms, m.gx.isFinite = true ∧ m.gz.isFinite = true) →
      ms ≠ [] →
      s.accumCount + ms.length = cfg.neutral_samples →
      (gyroRun cfg s calls).1.neutralGx =
        (s.accumGx + (ms.map fun m => m.gx.val).sum) / (cfg.neutral_samples : ℝ) ∧
      (gyroRun cfg s calls).1.neutralGz =
        (s.accumGz + (ms.map fun m => m.gz.val).sum) / (cfg.neutral_samples : ℝ) ∧
      ((gyroRun cfg s calls).2.filter id).length = 1 := by
  intro ms calls s hforall
  induction hforall generalizing s with
  | nil => intro _ hne _; exact absurd rfl hne
  | cons hrel hrest ih =>
    rename_i c m calls2 ms2
    intro hfin _ hcount
    obtain ⟨hf1, hf2⟩ := hfin m (List.mem_cons_self m ms2)
    have hlt : s.accumCount < cfg.neutral_samples := by
      simp only [List.length_cons] at hcount
      omega
    cases ms2 with
    | nil =>
      cases hrest
      have heq : s.accumCount + 1 = cfg.neutral_samples := by
        simpa using hcount
      have hstep := gyroUpdate_lock_step cfg s c.1 c.2 m hrel hf1 hf2 hlt heq
      simp only [gyroRun, hstep, List.map_cons, List.map_nil,
        List.sum_cons, List.sum_nil, add_zero, List.filter_cons]
      rw [← heq]
      simp [gyroLockState, gyroCalibBump]
    | cons m2 ms3 =>
      have hne2 : s.accumCount + 1 ≠ cfg.neutral_samples := by
        simp only [List.length_cons] at hcount
        omega
      have hstep := gyroUpdate_calib_step cfg s c.1 c.2 m hrel hf1 hf2 hlt hne2
      have hcount2 : (gyroCalibBump s m).accumCount + (m2 :: ms3).length =
          cfg.neutral_samples := by
        simp only [gyroCalibBump, List.length_cons] at hcount ⊢
        omega
      have hih := ih (gyroCalibBump s m)
        (fun x hx => hfin x (List.mem_cons_of_mem m hx)) (by simp) hcount2
      simp only [gyroRun, hstep, List.filter_cons]
      refine ⟨?_, ?_, ?_⟩
      · rw [hih.1]
        simp [gyroCalibBump, List.sum_cons, add_assoc]
      · rw [hih.2.1]
        simp [gyroCalibBump, List.sum_cons, add_assoc]
      · simpa using hih.2.2

theorem memsShape_noLock (cfg : MemsMouseConfig) (s : MemsMouseState)
    (ax ay v w : ℝ) :
    (memsShape cfg s ax ay v w).locked = false ∧
    (memsShape cfg s ax ay v w).state.accumCount = s.accumCount :=
  ⟨rfl, rfl⟩

theorem memsStillGate_noLock (cfg : MemsMouseConfig) (s : MemsMouseState)
    (ax ay : ℝ) :
    (memsStillGate cfg s ax ay).locked = false ∧
    (memsStillGate cfg s ax ay).state.accumCount = s.accumCount := by
  unfold memsStillGate
  dsimp only
  repeat' split
  all_goals first
    | exact ⟨rfl, rfl⟩
    | exact memsShape_noLock cfg s ax ay _ _

theorem memsPostLock_noLock (cfg : MemsMouseConfig) (s : MemsMouseState)
    (ax ay gx gy gz : ℝ) :
    (memsPostLock cfg s ax ay gx gy gz).locked = false ∧
    (memsPostLock cfg s ax ay gx gy gz).state.accumCount = s.accumCount := by
  unfold memsPostLock
  dsimp only
  repeat' split
  all_goals first
    | exact ⟨rfl, rfl⟩
    | exact memsStillGate_noLock cfg s ax ay

theorem memsUpdate_noRelock (cfg : MemsMouseConfig) (s : MemsMouseState)
    (now : ℝ) (p : List MemsSample)
    (hc : cfg.neutral_samples ≤ s.accumCount) :
    (memsUpdate cfg s now p).locked = false ∧
    (memsUpdate cfg s now p).state.accumCount = s.accumCount := by
  unfold memsUpdate
  split
  · exact ⟨rfl, rfl⟩
  · split
    · exact ⟨rfl, rfl⟩
    · dsimp only
      rw [if_neg (Nat.not_lt.mpr hc)]
      by_cases hrate : now - s.lastUpdateTs < cfg.update_interval_sec
      · rw [if_pos hrate]
        exact ⟨rfl, rfl⟩
      · rw [if_neg hrate]
        exact memsPostLock_noLock cfg _ _ _ _ _ _

theorem gyroOnlineShape_noLock (cfg : GyroMouseOnlineConfig)
    (s : GyroOnlineState) (dx dy : ℚ) :
    (gyroOnlineShape cfg s dx dy).locked = false ∧
    (gyroOnlineShape cfg s dx dy).state.accumCount = s.accumCount :=
  ⟨rfl, rfl⟩

theorem gyroOnlineCont_noLock (cfg : GyroMouseOnlineConfig)
    (s : GyroOnlineState) (gx gz dx dy : ℚ) :
    (gyroOnlineCont cfg s gx gz dx dy).locked = false ∧
    (gyroOnlineCont cfg s gx gz dx dy).state.accumCount = s.accumCount := by
  unfold gyroOnlineCont
  dsimp only
  repeat' split
  all_goals first
    | exact ⟨rfl, rfl⟩
    | exact gyroOnlineShape_noLock cfg _ dx dy

theorem gyroOnlineUpdate_noRelock (cfg : GyroMouseOnlineConfig)
    (s : GyroOnlineState) (now : ℚ) (p : List (GyroSample ℚ))
    (hc : cfg.neutral_samples ≤ s.accumCount) :
    (gyroOnlineUpdate cfg s now p).locked = false ∧
    (gyroOnlineUpdate cfg s now p).state.accumCount = s.accumCount := by
  unfold gyroOnlineUpdate
  split
  · exact ⟨rfl, rfl⟩
  · split
    · exact ⟨rfl, rfl⟩
    · dsimp only
      rw [if_neg (Nat.not_lt.mpr hc)]
      by_cases hrate : now - s.lastUpdateTs < cfg.update_interval_sec
      · rw [if_pos hrate]
        exact ⟨rfl, rfl⟩
      · rw [if_neg hrate]
        repeat' split
        all_goals first
          | exact ⟨rfl, rfl⟩
          | exact gyroOnlineCont_noLock cfg _ _ _ _ _

theorem gyroShape_noLock (cfg : GyroMouseConfig) (s : GyroMouseState)
    (dx dy v w : ℝ) :
    (gyroShape cfg s dx dy v w).locked = false ∧
    (gyroShape cfg s dx dy v w).state.accumCount = s.accumCount :=
  ⟨rfl, rfl⟩

theorem gyroCont_noLock (cfg : GyroMouseConfig) (s : GyroMouseState)
    (gx gz dx dy : ℝ) :
    (gyroCont cfg s gx gz dx dy).locked = false ∧
    (gyroCont cfg s gx gz dx dy).state.accumCount = s.accumCount := by
  unfold gyroCont
  dsimp only
  repeat' split
  all_goals first
    | exact ⟨rfl, rfl⟩
    | exact gyroShape_noLock cfg _ dx dy _ _

theorem gyroUpdate_noRelock (cfg : GyroMouseConfig) (s : GyroMouseState)
    (now : ℝ) (p : List (GyroSample ℝ))
    (hc : cfg.neutral_samples ≤ s.accumCount) :
    (gyroUpdate cfg s now p).locked = false ∧
    (gyroUpdate cfg s now p).state.accumCount = s.accumCount := by
  unfold gyroUpdate
  split
  · exact ⟨rfl, rfl⟩
  · split
    · exact ⟨rfl, rfl⟩
    · dsimp only
      rw [if_neg (Nat.not_lt.mpr hc)]
      by_cases hrate : now - s.lastUpdateTs < cfg.update_interval_sec
      · rw [if_pos hrate]
        exact ⟨rfl, rfl⟩
      · rw [if_neg hrate]
        repeat' split
        all_goals first
          | exact ⟨rfl, rfl⟩
          | exact gyroCont_noLock cfg _ _ _ _ _

/-- C3: for every controller variant and every `N ≥ 1`, after exactly `N`
accepted (finite, well-formed) samples from the freshly constructed state,
the per-axis neutral baseline equals the arithmetic mean of exactly those
`N` accepted samples (the last sample of each packet), and the calibration
lock is reported exactly once; moreover once `accumCount` has reached `N`,
no later call ever reports the lock again or changes the count. -/
theorem c3_baseline_mean :
    (∀ (cfg : MemsMouseConfig) (ms : List MemsSample)
        (calls : List (ℝ × List MemsSample)),
      List.Forall₂ (fun (c : ℝ × List MemsSample) m => c.2.getLast? = some m)
        calls ms →
      (∀ m ∈ ms, m.ax.isFinite = true ∧ m.ay.isFinite = true ∧
        m.az.isFinite = true) →
      1 ≤ cfg.neutral_samples →
      ms.length = cfg.neutral_samples →
      (memsRun cfg memsInit calls).1.neutralX =
        (ms.map fun m => m.ax.val).sum / (cfg.neutral_samples : ℝ) ∧
      (memsRun cfg memsInit calls).1.neutralY =
        (ms.map fun m => m.ay.val).sum / (cfg.neutral_samples : ℝ) ∧
      (memsRun cfg memsInit calls).1.neutralZ =
        (ms.map fun m => m.az.val).sum / (cfg.neutral_samples : ℝ) ∧
      ((memsRun cfg memsInit calls).2.filter id).length = 1) ∧
    (∀ (cfg : MemsMouseConfig) (s : MemsMouseState) (now : ℝ)
        (p : List MemsSample), cfg.neutral_samples ≤ s.accumCount →
      (memsUpdate cfg s now p).locked = false ∧
      (memsUpdate cfg s now p).state.accumCount = s.accumCount) ∧
    (∀ (cfg : GyroMouseOnlineConfig) (ms : List (GyroSample ℚ))
        (calls : List (ℚ × List (GyroSample ℚ))),
      List.Forall₂ (fun (c : ℚ × List (GyroSample ℚ)) m =>
        c.2.getLast? = some m) calls ms →
      (∀ m ∈ ms, m.gx.isFinite = true ∧ m.gz.isFinite = true) →
      1 ≤ cfg.neutral_samples →
      ms.length = cfg.neutral_samples →
      (gyroOnlineRun cfg gyroOnlineInit calls).1.neutralGx =
        (ms.map fun m => m.gx.val).sum / (cfg.neutral_samples : ℚ) ∧
      (gyroOnlineRun cfg gyroOnlineInit calls).1.neutralGz =
        (ms.map fun m => m.gz.val).sum / (cfg.neutral_samples : ℚ) ∧
      ((gyroOnlineRun cfg gyroOnlineInit calls).2.filter id).length = 1) ∧
    (∀ (cfg : GyroMouseOnlineConfig) (s : GyroOnlineState) (now : ℚ)
        (p : List (GyroSample ℚ)), cfg.neutral_samples ≤ s.accumCount →
      (gyroOnlineUpdate cfg s now p).locked = false ∧
      (gyroOnlineUpdate cfg s now p).state.accumCount = s.accumCount) ∧
    (∀ (cfg : GyroMouseConfig) (ms : List (GyroSample ℝ))
        (calls : List (ℝ × List (GyroSample ℝ))),
      List.Forall₂ (fun (c : ℝ × List (GyroSample ℝ)) m =>
        c.2.getLast? = some m) calls ms →
      (∀ m ∈ ms, m.gx.isFinite = true ∧ m.gz.isFinite = true) →
      1 ≤ cfg.neutral_samples →
      ms.length = cfg.neutral_samples →
      (gyroRun cfg gyroMouseInit calls).1.neutralGx =
        (ms.map fun m => m.gx.val).sum / (cfg.neutral_samples : ℝ) ∧
      (gyroRun cfg gyroMouseInit calls).1.neutralGz =
        (ms.map fun m => m.gz.val).sum / (cfg.neutral_samples : ℝ) ∧
      ((gyroRun cfg gyroMouseInit calls).2.filter id).length = 1) ∧
    (∀ (cfg : GyroMouseConfig) (s : GyroMouseState) (now : ℝ)
        (p : List (GyroSample ℝ)), cfg.neutral_samples ≤ s.accumCount →
      (gyroUpdate cfg s now p).locked = false ∧
      (gyroUpdate cfg s now p).state.accumCount = s.accumCount) := by
  refine ⟨?_, memsUpdate_noRelock, ?_, gyroOnlineUpdate_noRelock, ?_,
    gyroUpdate_noRelock⟩
  · intro cfg ms calls hforall hfin hN hlen
    have hne : ms ≠ [] := List.length_pos.mp (by omega)
    have h := memsRun_calib cfg ms calls memsInit hforall hfin hne
      (by simpa [memsInit] using hlen)
    simpa [memsInit] using h
  · intro cfg ms calls hforall hfin hN hlen
    have hne : ms ≠ [] := List.length_pos.mp (by omega)
    have h := gyroOnlineRun_calib cfg ms calls gyroOnlineInit hforall hfin hne
      (by simpa [gyroOnlineInit] using hlen)
    simpa [gyroOnlineInit] using h
  · intro cfg ms calls hforall hfin hN hlen
    have hne : ms ≠ [] := List.length_pos.mp (by omega)
    have h := gyroRun_calib cfg ms calls gyroMouseInit hforall hfin hne
      (by simpa [gyroMouseInit] using hlen)
    simpa [gyroMouseInit] using h

/-- Witness for C3 at `N = 1`: one accepted sample locks each controller
with the baseline equal to that sample, and a locked state never reports the
lock again. -/
theorem c3_witness :
    (List.Forall₂ (fun (c : ℝ × List MemsSample) m => c.2.getLast? = some m)
      [((0:ℝ), [(⟨.fin 1, .fin 2, .fin 3, 0, 0, 0⟩ : MemsSample)])]
      [(⟨.fin 1, .fin 2, .fin 3, 0, 0, 0⟩ : MemsSample)] ∧
     (∀ m ∈ [(⟨.fin 1, .fin 2, .fin 3, 0, 0, 0⟩ : MemsSample)],
       m.ax.isFinite = true ∧ m.ay.isFinite = true ∧ m.az.isFinite = true) ∧
     1 ≤ ({ neutral_samples := 1 } : MemsMouseConfig).neutral_samples ∧
     [(⟨.fin 1, .fin 2, .fin 3, 0, 0, 0⟩ : MemsSample)].length =
       ({ neutral_samples := 1 } : MemsMouseConfig).neutral_samples ∧
     ({ neutral_samples := 1 } : MemsMouseConfig).neutral_samples ≤
       ({ memsInit with accumCount := 1 } : MemsMouseState).accumCount ∧
     List.Forall₂ (fun (c : ℚ × List (GyroSample ℚ)) m =>
       c.2.getLast? = some m)
       [((0:ℚ), [(⟨.fin 1, .fin 0, .fin 2⟩ : GyroSample ℚ)])]
       [(⟨.fin 1, .fin 0, .fin 2⟩ : GyroSample ℚ)] ∧
     (∀ m ∈ [(⟨.fin 1, .fin 0, .fin 2⟩ : GyroSample ℚ)],
       m.gx.isFinite = true ∧ m.gz.isFinite = true) ∧
     1 ≤ ({ neutral_samples := 1 } : GyroMouseOnlineConfig).neutral_samples ∧
     [(⟨.fin 1, .fin 0, .fin 2⟩ : GyroSample ℚ)].length =
       ({ neutral_samples := 1 } : GyroMouseOnlineConfig).neutral_samples ∧
     ({ neutral_samples := 1 } : GyroMouseOnlineConfig).neutral_samples ≤
       ({ gyroOnlineInit with accumCount := 1 } : GyroOnlineState).accumCount ∧
     List.Forall₂ (fun (c : ℝ × List (GyroSample ℝ)) m =>
       c.2.getLast? = some m)
       [((0:ℝ), [(⟨.fin 1, .fin 0, .fin 2⟩ : GyroSample ℝ)])]
       [(⟨.fin 1, .fin 0, .fin 2⟩ : GyroSample ℝ)] ∧
     (∀ m ∈ [(⟨.fin 1, .fin 0, .fin 2⟩ : GyroSample ℝ)],
       m.gx.isFinite = true ∧ m.gz.isFinite = true) ∧
     1 ≤ ({ gyroMouseCfgEx with neutral_samples := 1 } :
       GyroMouseConfig).neutral_samples ∧
     [(⟨.fin 1, .fin 0, .fin 2⟩ : GyroSample ℝ)].length =
       ({ gyroMouseCfgEx with neutral_samples := 1 } :
         GyroMouseConfig).neutral_samples ∧
     ({ gyroMouseCfgEx with neutral_samples := 1 } :
       GyroMouseConfig).neutral_samples ≤
       ({ gyroMouseInit with accumCount := 1 } : GyroMouseState).accumCount) ∧
    (((memsRun { neutral_samples := 1 } memsInit
        [((0:ℝ), [(⟨.fin 1, .fin 2, .fin 3, 0, 0, 0⟩ : MemsSample)])]).1.neutralX =
       ([(⟨.fin 1, .fin 2, .fin 3, 0, 0, 0⟩ : MemsSample)].map
         fun m => m.ax.val).sum /
         ((({ neutral_samples := 1 } : MemsMouseConfig).neutral_samples : ℕ) : ℝ) ∧
      (memsRun { neutral_samples := 1 } memsInit
        [((0:ℝ), [(⟨.fin 1, .fin 2, .fin 3, 0, 0, 0⟩ : MemsSample)])]).1.neutralY =
       ([(⟨.fin 1, .fin 2, .fin 3, 0, 0, 0⟩ : MemsSample)].map
         fun m => m.ay.val).sum /
         ((({ neutral_samples := 1 } : MemsMouseConfig).neutral_samples : ℕ) : ℝ) ∧
      (memsRun { neutral_samples := 1 } memsInit
        [((0:ℝ), [(⟨.fin 1, .fin 2, .fin 3, 0, 0, 0⟩ : MemsSample)])]).1.neutralZ =
       ([(⟨.fin 1, .fin 2, .fin 3, 0, 0, 0⟩ : MemsSample)].map
         fun m => m.az.val).sum /
         ((({ neutral_samples := 1 } : MemsMouseConfig).neutral_samples : ℕ) : ℝ) ∧
      ((memsRun { neutral_samples := 1 } memsInit
        [((0:ℝ), [(⟨.fin 1, .fin 2, .fin 3, 0, 0, 0⟩ : MemsSample)])]).2.filter
          id).length = 1) ∧
     ((memsUpdate { neutral_samples := 1 } { memsInit with accumCount := 1 }
        0 []).locked = false ∧
      (memsUpdate { neutral_samples := 1 } { memsInit with accumCount := 1 }
        0 []).state.accumCount =
        ({ memsInit with accumCount := 1 } : MemsMouseState).accumCount) ∧
     ((gyroOnlineRun { neutral_samples := 1 } gyroOnlineInit
        [((0:ℚ), [(⟨.fin 1, .fin 0, .fin 2⟩ : GyroSample ℚ)])]).1.neutralGx =
       ([(⟨.fin 1, .fin 0, .fin 2⟩ : GyroSample ℚ)].map fun m => m.gx.val).sum /
         ((({ neutral_samples := 1 } :
           GyroMouseOnlineConfig).neutral_samples : ℕ) : ℚ) ∧
      (gyroOnlineRun { neutral_samples := 1 } gyroOnlineInit
        [((0:ℚ), [(⟨.fin 1, .fin 0, .fin 2⟩ : GyroSample ℚ)])]).1.neutralGz =
       ([(⟨.fin 1, .fin 0, .fin 2⟩ : GyroSample ℚ)].map fun m => m.gz.val).sum /
         ((({ neutral_samples := 1 } :
           GyroMouseOnlineConfig).neutral_samples : ℕ) : ℚ) ∧
      ((gyroOnlineRun { neutral_samples := 1 } gyroOnlineInit
        [((0:ℚ), [(⟨.fin 1, .fin 0, .fin 2⟩ : GyroSample ℚ)])]).2.filter
          id).length = 1) ∧
     ((gyroOnlineUpdate { neutral_samples := 1 }
        { gyroOnlineInit with accumCount := 1 } 0 []).locked = false ∧
      (gyroOnlineUpdate { neutral_samples := 1 }
        { gyroOnlineInit with accumCount := 1 } 0 []).state.accumCount =
        ({ gyroOnlineInit with accumCount := 1 } : GyroOnlineState).accumCount) ∧
     ((gyroRun { gyroMouseCfgEx with neutral_samples := 1 } gyroMouseInit
        [((0:ℝ), [(⟨.fin 1, .fin 0, .fin 2⟩ : GyroSample ℝ)])]).1.neutralGx =
       ([(⟨.fin 1, .fin 0, .fin 2⟩ : GyroSample ℝ)].map fun m => m.gx.val).sum /
         ((({ gyroMouseCfgEx with neutral_samples := 1 } :
           GyroMouseConfig).neutral_samples : ℕ) : ℝ) ∧
      (gyroRun { gyroMouseCfgEx with neutral_samples := 1 } gyroMouseInit
        [((0:ℝ), [(⟨.fin 1, .fin 0, .fin 2⟩ : GyroSample ℝ)])]).1.neutralGz =
       ([(⟨.fin 1, .fin 0, .fin 2⟩ : GyroSample ℝ)].map fun m => m.gz.val).sum /
         ((({ gyroMouseCfgEx with neutral_samples := 1 } :
           GyroMouseConfig).neutral_samples : ℕ) : ℝ) ∧
      ((gyroRun { gyroMouseCfgEx with neutral_samples := 1 } gyroMouseInit
        [((0:ℝ), [(⟨.fin 1, .fin 0, .fin 2⟩ : GyroSample ℝ)])]).2.filter
          id).length = 1) ∧
     ((gyroUpdate { gyroMouseCfgEx with neutral_samples := 1 }
        { gyroMouseInit with accumCount := 1 } 0 []).locked = false ∧
      (gyroUpdate { gyroMouseCfgEx with neutral_samples := 1 }
        { gyroMouseInit with accumCount := 1 } 0 []).state.accumCount =
        ({ gyroMouseInit with accumCount := 1 } : GyroMouseState).accumCount)) :=
  ⟨⟨List.Forall₂.cons rfl List.Forall₂.nil,
    by intro m hm; simp at hm; subst hm; exact ⟨rfl, rfl, rfl⟩,
    by norm_num, rfl, by norm_num [memsInit],
    List.Forall₂.cons rfl List.Forall₂.nil,
    by intro m hm; simp at hm; subst hm; exact ⟨rfl, rfl⟩,
    by norm_num, rfl, by norm_num [gyroOnlineInit],
    List.Forall₂.cons rfl List.Forall₂.nil,
    by intro m hm; simp at hm; subst hm; exact ⟨rfl, rfl⟩,
    by norm_num, rfl, by norm_num [gyroMouseInit]⟩,
   c3_baseline_mean.1 { neutral_samples := 1 } _ _
     (List.Forall₂.cons rfl List.Forall₂.nil)
     (by intro m hm; simp at hm; subst hm; exact ⟨rfl, rfl, rfl⟩)
     (by norm_num) rfl,
   c3_baseline_mean.2.1 { neutral_samples := 1 }
     { memsInit with accumCount := 1 } 0 [] (by norm_num [memsInit]),
   c3_baseline_mean.2.2.1 { neutral_samples := 1 } _ _
     (List.Forall₂.cons rfl List.Forall₂.nil)
     (by intro m hm; simp at hm; subst hm; exact ⟨rfl, rfl⟩)
     (by norm_num) rfl,
   c3_baseline_mean.2.2.2.1 { neutral_samples := 1 }
     { gyroOnlineInit with accumCount := 1 } 0 [] (by norm_num [gyroOnlineInit]),
   c3_baseline_mean.2.2.2.2.1 { gyroMouseCfgEx with neutral_samples := 1 } _ _
     (List.Forall₂.cons rfl List.Forall₂.nil)
     (by intro m hm; simp at hm; subst hm; exact ⟨rfl, rfl⟩)
     (by norm_num) rfl,
   c3_baseline_mean.2.2.2.2.2 { gyroMouseCfgEx with neutral_samples := 1 }
     { gyroMouseInit with accumCount := 1 } 0 [] (by norm_num [gyroMouseInit])⟩

end NeuroTech
